import Mathlib

/-
  Verification development for the pyrism repository (two source files:
  pyrism/scattering/tmat/tmatrix.py and pyrism/soil/I2EM/i2em.py).

  The numerical kernels consumed by the sources (the Fortran T-matrix
  wrappers from pyrism.core.tma, the respy angle utilities, numpy/scipy
  routines, and the functions of pyrism.soil.I2EM.core) are external
  collaborators: they are abstracted as black-box total functions, gathered
  in kernel records over which the embedding is parametric.  Exact rationals
  stand in for the floating-point scalars.
-/

namespace Pyrism

/-- Complex scalar, modelling the complex values flowing through the
numerical code (numpy complex entries). -/
structure Cx where
  re : ℚ
  im : ℚ
deriving DecidableEq, Repr, Inhabited

namespace Cx

/-- Real number viewed as a complex one. -/
def ofRat (x : ℚ) : Cx := ⟨x, 0⟩

/-- Complex addition. -/
def add (a b : Cx) : Cx := ⟨a.re + b.re, a.im + b.im⟩

/-- Complex subtraction. -/
def sub (a b : Cx) : Cx := ⟨a.re - b.re, a.im - b.im⟩

/-- Complex multiplication. -/
def mul (a b : Cx) : Cx := ⟨a.re * b.re - a.im * b.im, a.re * b.im + a.im * b.re⟩

/-- Squared magnitude. -/
def normSq (a : Cx) : ℚ := a.re * a.re + a.im * a.im

/-- Complex division through the conjugate; total (zero denominator gives
zero components, following the Lean convention for division by zero). -/
def div (a b : Cx) : Cx :=
  ⟨(a.re * b.re + a.im * b.im) / normSq b, (a.im * b.re - a.re * b.im) / normSq b⟩

end Cx

/-- np.abs(z) ** 2 for a complex z: the squared magnitude. -/
def absSq (z : Cx) : ℚ := z.re ^ 2 + z.im ^ 2

/-- Errors raised by the embedded code: ValueError with its message, and the
shape-mismatch failure of the external broadcasting utilities. -/
inductive Err where
  | valueError (msg : String)
  | shapeMismatch
deriving DecidableEq, Repr

namespace I2EM

/-- Modelled from the spec: the decibel helper dB lives in pyrism.core,
which is not among the sources at hand.  The spec fixes it as 10 * log10 x
for positive x, propagating NaN (modelled as none) for non-positive x while
the call sites suppress the floating-point warning
(np.errstate in I2EM.__sigma_nought and I2EM.Emissivity.__calc).  log10f
stands for the external base-10 logarithm, consulted only on positive
inputs. -/
def dB (log10f : ℚ → ℚ) (x : ℚ) : Option ℚ :=
  if 0 < x then some (10 * log10f x) else none

/-- The accumulation loop of I2EM.__sigma_nought: for i = 1 .. Ts,
a0 = Wn[i-1] / factorial(i) * sigma ** (2 * i), and the two accumulators
gain abs(Ivv[i-1]) ** 2 * a0 and abs(Ihh[i-1]) ** 2 * a0. -/
def sigmaLoop (Wn : List ℚ) (Ivv Ihh : List Cx) (sigma : ℚ) : ℕ → ℚ × ℚ
  | 0 => (0, 0)
  | t + 1 =>
    let acc := sigmaLoop Wn Ivv Ihh sigma t
    let i := t + 1
    let a0 := Wn.getD (i - 1) 0 / (Nat.factorial i : ℚ) * sigma ^ (2 * i)
    (acc.1 + absSq (Ivv.getD (i - 1) ⟨0, 0⟩) * a0,
     acc.2 + absSq (Ihh.getD (i - 1) ⟨0, 0⟩) * a0)

/-- Result record of I2EM.__sigma_nought. -/
structure SigRes where
  VV : ℚ
  HH : ℚ
  VVdB : Option ℚ
  HHdB : Option ℚ
deriving Repr

/-- I2EM.__sigma_nought: sums the truncated series, applies the shadowing
factor and the attenuation exponential, and converts to dB.  expf stands for
np.exp and log10f for the base-10 logarithm of the dB helper. -/
def sigma_nought (log10f expf : ℚ → ℚ) (Ts : ℕ) (Wn : List ℚ) (Ivv Ihh : List Cx)
    (ShdwS k kz_iza kz_vza sigma : ℚ) : SigRes :=
  let acc := sigmaLoop Wn Ivv Ihh sigma Ts
  let VV := acc.1 * ShdwS * k ^ 2 / 2 * expf (-sigma ^ 2 * (kz_iza ^ 2 + kz_vza ^ 2))
  let HH := acc.2 * ShdwS * k ^ 2 / 2 * expf (-sigma ^ 2 * (kz_iza ^ 2 + kz_vza ^ 2))
  ⟨VV, HH, dB log10f VV, dB log10f HH⟩

/-- External kernels consumed by I2EM.__init__ (they live in
pyrism.soil.I2EM.core and numpy, outside the sources at hand): trigonometric
and exponential functions, and the staged functions reflection_coefficients,
the selected correlation function, r_transition, Ra_integration,
biStatic_coefficient, Ipp and shadowing_function, with the tuple shapes they
return in the source. -/
structure IK where
  cosf : ℚ → ℚ
  expf : ℚ → ℚ
  log10f : ℚ → ℚ
  refl : ℚ → ℚ → ℚ → ℚ → ℚ → Cx → ℚ → Cx × Cx × Cx × ℚ × ℕ
  corr : ℚ → ℚ → ℚ → ℕ → ℕ → List ℚ × ℚ
  rtrans : ℚ → ℚ → ℚ → ℚ → Cx → List ℚ → ℕ → Cx × Cx × Cx
  raInt : ℚ → ℚ → ℚ → Cx → Cx × Cx
  bico : ℚ → ℚ → ℚ → Cx → Cx → Cx → Cx → Cx → Cx → Cx → Cx × Cx × Cx × Cx
  ipp : ℚ → ℚ → ℚ → ℚ → Cx → Cx → Cx → ℚ → ℚ → ℚ → Cx → Cx → ℚ → ℕ → List Cx × List Cx
  shad : ℚ → ℚ → ℚ → ℚ → ℚ

/-- State assembled by I2EM.__init__ for one sample. -/
structure RunRes where
  k : ℚ
  kz_iza : ℚ
  kz_vza : ℚ
  Ts : ℕ
  Wn : List ℚ
  Ivv : List Cx
  Ihh : List Cx
  ShdwS : ℚ
  out : SigRes

/-- The computational body of I2EM.__init__ for one sample (the array
broadcasting and the degree-to-radian conversion live in the external Angles
base class; iza, vza, raa are in radians here, and the corrfunc string
dispatch of lines 81-90 has already selected the correlation function held
in the kernel record).  piv stands for np.pi; the source sets
self.k = 2 * np.pi * frequency / 30 and phi = 0. -/
def run (K : IK) (piv iza vza raa frequency : ℚ) (eps : Cx) (corrlength sigma : ℚ)
    (n : ℕ) : RunRes :=
  let k := 2 * piv * frequency / 30
  let kz_iza := k * K.cosf (iza + 1 / 100)
  let kz_vza := k * K.cosf vza
  let phi : ℚ := 0
  let r := K.refl k iza vza raa phi eps sigma
  let Rvi := r.2.1
  let Rhi := r.2.2.1
  let wvnb := r.2.2.2.1
  let Ts := r.2.2.2.2
  let cw := K.corr sigma corrlength wvnb Ts n
  let Wn := cw.1
  let rss := cw.2
  let rt := K.rtrans k iza vza sigma eps Wn Ts
  let Tf := rt.1
  let Rv0 := rt.2.1
  let Rh0 := rt.2.2
  let ra := K.raInt iza sigma corrlength eps
  let bc := K.bico iza vza raa Rvi Rv0 Rhi Rh0 ra.1 ra.2 Tf
  let fvv := bc.1
  let fhh := bc.2.1
  let ivh := K.ipp iza vza raa phi Rvi Rhi eps k kz_iza kz_vza fvv fhh sigma Ts
  let Ivv := ivh.1
  let Ihh := ivh.2
  let ShdwS := K.shad iza vza raa rss
  let out := sigma_nought K.log10f K.expf Ts Wn Ivv Ihh ShdwS k kz_iza kz_vza sigma
  ⟨k, kz_iza, kz_vza, Ts, Wn, Ivv, Ihh, ShdwS, out⟩

/-- Type of the external emissivity correlation functions
(exponential_ems, gaussian_ems, mixed_ems), consumed only as black-box
callables threaded into the quadrature kernel. -/
abbrev CorrF := ℚ → ℚ → ℚ

/-- External kernels consumed by I2EM.Emissivity: trigonometric functions,
the complex square root, the three emissivity correlation functions, and the
scipy adaptive double quadrature (first four arguments: outer lower and
upper bound, inner lower and upper bound; returns the pair of integral value
and error estimate, of which the source uses index 0). -/
structure EK where
  cosf : ℚ → ℚ
  sinf : ℚ → ℚ
  expf : ℚ → ℚ
  log10f : ℚ → ℚ
  csqrt : Cx → Cx
  exponential_ems : CorrF
  gaussian_ems : CorrF
  mixed_ems : CorrF
  dblquadE : ℚ → ℚ → ℚ → ℚ → ℚ → Cx → Cx → Cx → ℚ → ℚ → ℚ → Cx → CorrF → ℚ → String → ℚ × ℚ
  piE : ℚ

/-- State assembled by I2EM.Emissivity.__init__ for one sample. -/
structure EmsRes where
  k : ℚ
  ks : ℚ
  kl : ℚ
  sq : Cx
  rv : Cx
  rh : Cx
  VV : ℚ
  HH : ℚ
  VVdB : Option ℚ
  HHdB : Option ℚ
deriving Inhabited

/-- I2EM.Emissivity.__calc: one double quadrature per polarization over
zenith 0 .. pi/2 (outer) and azimuth 0 .. pi (inner), then the coherent
reflectivity term; abs(r) ** 2 is the squared magnitude. -/
def ems_calc (K : EK) (iza : ℚ) (eps rv rh : Cx) (k kl ks : ℚ) (sq : Cx)
    (cf : CorrF) (corrlength : ℚ) : ℚ × ℚ × Option ℚ × Option ℚ :=
  let refv := K.dblquadE 0 (K.piE / 2) 0 K.piE iza eps rv rh k kl ks sq cf corrlength "vv"
  let refh := K.dblquadE 0 (K.piE / 2) 0 K.piE iza eps rv rh k kl ks sq cf corrlength "hh"
  let VV := 1 - refv.1 - K.expf (-ks ^ 2 * K.cosf iza * K.cosf iza) * absSq rv
  let HH := 1 - refh.1 - K.expf (-ks ^ 2 * K.cosf iza * K.cosf iza) * absSq rh
  (VV, HH, dB K.log10f VV, dB K.log10f HH)

/-- The computational part of I2EM.Emissivity.__init__ after the corrfunc
dispatch: wavenumber and roughness numbers (the source divides the frequency
by 1e9 first), Fresnel reflection coefficients, then __calc. -/
def emissivity_body (K : EK) (iza frequency : ℚ) (eps : Cx)
    (corrlength sigma : ℚ) (cf : CorrF) : EmsRes :=
  let fr := frequency / 1000000000
  let k := 2 * K.piE * fr / 30
  let ks := k * sigma
  let kl := k * corrlength
  let sq := K.csqrt (Cx.sub eps (Cx.ofRat (K.sinf iza ^ 2)))
  let rv := Cx.div (Cx.sub (Cx.mul eps (Cx.ofRat (K.cosf iza))) sq)
                   (Cx.add (Cx.mul eps (Cx.ofRat (K.cosf iza))) sq)
  let rh := Cx.div (Cx.sub (Cx.ofRat (K.cosf iza)) sq)
                   (Cx.add (Cx.ofRat (K.cosf iza)) sq)
  let r := ems_calc K iza eps rv rh k kl ks sq cf corrlength
  ⟨k, ks, kl, sq, rv, rh, r.1, r.2.1, r.2.2.1, r.2.2.2⟩

/-- I2EM.Emissivity.__init__ for one sample: corrfunc string dispatch (vza
and raa take no part in the emissivity computation, mirroring the source),
then the computational body. -/
def emissivity_run (K : EK) (iza vza raa frequency : ℚ) (eps : Cx)
    (corrlength sigma : ℚ) (corrfunc : String) : Except Err EmsRes :=
  match (if corrfunc = "exponential" then some K.exponential_ems
         else if corrfunc = "gaussian" then some K.gaussian_ems
         else if corrfunc = "mixed" then some K.mixed_ems
         else none) with
  | none => Except.error
      (Err.valueError "The parameter corrfunc must be exponential, gaussian or mixed")
  | some cf => Except.ok (emissivity_body K iza frequency eps corrlength sigma cf)

end I2EM

namespace TMatrix

/-- Literal from the source file: PI = 3.14159265359. -/
def PI : ℚ := 3.14159265359

/-- Orientation probability density function, consumed as a black-box
callable by the averaged-orientation kernels. -/
abbrev Pdf := ℚ → ℚ

/-- One per-sample block of the complex scattering matrix S, indexed the way
the Snorm extraction loop indexes it. -/
abbrev SMat := Fin 4 → Fin 4 → Cx

/-- One per-sample block of the real phase matrix Z. -/
abbrev ZMat := Fin 4 → Fin 4 → ℚ

/-- Per-sample (VV, HH) coefficient rows, the shape of the extinction,
scattering, absorption, transmission and cross-section kernel outputs. -/
abbrev KMat := List (ℚ × ℚ)

/-- Modelled from the spec: the lookup table param_radius_type of
pyrism.scattering.tmat.tm_auxiliary is not among the sources at hand.  The
constructor docstring fixes the admissible keys REV, M, REA; the numeric
codes follow the branch constants of TMatrix.__NMAX (maximum radius is code
2 and is converted to equal-volume code 1). -/
def param_radius_type : String → Option ℕ := fun s =>
  if s = "REV" then some 1 else if s = "M" then some 2
  else if s = "REA" then some 0 else none

/-- Modelled from the spec: the lookup table param_shape of tm_auxiliary is
not among the sources at hand; the docstring fixes the keys SPH and CYL.
Only which keys are admissible matters here, the numeric codes are opaque to
the claims. -/
def param_shape : String → Option ℤ := fun s =>
  if s = "SPH" then some (-1) else if s = "CYL" then some (-2) else none

/-- Modelled from the spec: the admissible orientation codes of
tm_auxiliary, per the constructor docstring: S (single), AA (averaged
adaptive), AF (averaged fixed). -/
def param_orientation : List String := ["S", "AA", "AF"]

/-- Modelled from the spec: the broadcasting discipline of the external
respy alignment utilities — an array is broadcast to the common length L by
repetition when it is a scalar (length one), kept when it already has length
L, and cannot be aligned otherwise. -/
def broadcastTo (L : ℕ) (xs : List ℚ) : Option (List ℚ) :=
  if xs.length = L then some xs
  else if xs.length = 1 then some (List.replicate L (xs.getD 0 0))
  else none

/-- Modelled from the spec: Angles.align_with pads a shorter array to the
instance length (the degraded-input auto-padding advisory of the spec),
repeating the trailing entry; a longer array is truncated. -/
def padTo (L : ℕ) (xs : List ℚ) : List ℚ :=
  xs.take L ++ List.replicate (L - xs.length) (xs.getLastD 0)

/-- External kernels consumed by TMatrix: the EMW frequency/wavelength
object of respy, the equal-volume conversion, the NMAX truncation-order
kernel, the scattering-matrix kernels (single and averaged-fixed), the
half-space integration kernels, the cross-section kernels and the
coefficient wrappers, as imported from pyrism.core.tma. -/
structure TKernels where
  emwFrequency : List ℚ → List ℚ
  emwWavelength : List ℚ → List ℚ
  emwK0 : List ℚ → List ℚ
  emwWavelengthSet : List ℚ → List ℚ
  emwFrequencyOfW : List ℚ → List ℚ
  emwK0OfW : List ℚ → List ℚ
  emwAlign : List ℚ → List ℚ
  eqvol : ℚ → ℚ → ℤ → ℚ
  nmaxK : List ℚ → ℕ → List ℚ → List ℚ → List ℚ → List ℚ → ℤ → List ℕ
  szS : List ℕ → List ℚ → List ℚ → List ℚ → List ℚ → List ℚ → List ℚ → List ℚ →
    List SMat × List ZMat
  szAF : List ℕ → List ℚ → List ℚ → List ℚ → List ℚ → List ℚ → ℤ → ℤ → Pdf →
    List SMat × List ZMat
  dblquadS : List ℕ → List ℚ → List ℚ → List ℚ → List ℚ → List ℚ → Bool → List ZMat
  dblquadAF : List ℕ → List ℚ → List ℚ → List ℚ → ℤ → ℤ → Pdf → Bool → List ZMat
  xsecQSs : List ℕ → List ℚ → List ℚ → List ℚ → List ℚ → List ℚ → KMat
  xsecQSaf : List ℕ → List ℚ → List ℚ → List ℚ → ℤ → ℤ → Pdf → KMat
  xsecASYs : List ℕ → List ℚ → List ℚ → List ℚ → List ℚ → List ℚ → KMat
  xsecASYaf : List ℕ → List ℚ → List ℚ → List ℚ → ℤ → ℤ → Pdf → KMat
  xsecQE : List SMat → List ℚ → KMat
  xsecQSI : List ZMat → KMat
  keW : List Cx → List SMat → KMat
  ktW : KMat → KMat
  ksW : KMat → KMat → KMat
  kaW : KMat → KMat → KMat

/-- The mutable state of a TMatrix instance: the configuration fields set by
the constructor and the setters, the truncation order, and the fourteen
lazily materialized derived slots (None until first read). -/
structure TM where
  izaDeg : List ℚ
  vzaDeg : List ℚ
  iaaDeg : List ℚ
  vaaDeg : List ℚ
  alphaDeg : List ℚ
  betaDeg : List ℚ
  normalize : Bool
  nbar : ℚ
  frequency : List ℚ
  wavelength : List ℚ
  k0 : List ℚ
  radius : List ℚ
  radius_type : ℕ
  axis_ratio : List ℚ
  shape_volume : ℤ
  epsr : List ℚ
  epsi : List ℚ
  N : List ℚ
  orient : String
  or_pdf : Pdf
  n_alpha : ℤ
  n_beta : ℤ
  nmax : List ℕ
  S? : Option (List SMat)
  Z? : Option (List ZMat)
  Snorm? : Option SMat
  Znorm? : Option ZMat
  dblZi? : Option (List ZMat)
  XS? : Option KMat
  XAS? : Option KMat
  XE? : Option KMat
  XI? : Option KMat
  ke? : Option KMat
  kt? : Option KMat
  omega? : Option KMat
  ks? : Option KMat
  ka? : Option KMat
deriving Inhabited

/-- TMatrix.factor: (2 * PI * N * 1j) / k0, entrywise; k0 is real, so the
quotient is purely imaginary. -/
def TM.factor (t : TM) : List Cx :=
  List.zipWith (fun n k => Cx.mk 0 (2 * PI * n / k)) t.N t.k0

/-- TMatrix.__property_return: every branch of the source returns X
unchanged (the normalisation slicing is commented out). -/
def property_return {α : Type} (selfNormalize : Bool) (normalize : Bool) (X : α) : α :=
  if normalize then (if selfNormalize then X else X)
  else (if selfNormalize then X else X)

/-- The optional explicit angle arguments of compute_SZ. -/
structure Overrides where
  izaDeg : Option (List ℚ)
  vzaDeg : Option (List ℚ)
  iaaDeg : Option (List ℚ)
  vaaDeg : Option (List ℚ)
  alphaDeg : Option (List ℚ)
  betaDeg : Option (List ℚ)

/-- No explicit angles: compute_SZ falls back to the canonical arrays. -/
def noOv : Overrides := ⟨none, none, none, none, none, none⟩

/-- The per-argument treatment in compute_SZ: when an explicit value is
given, `_, x = align_all((self.xDeg, x))` aligns the pair and keeps only the
aligned override. -/
def alignSnd (canon given : List ℚ) : Except Err (List ℚ) :=
  match broadcastTo (max canon.length given.length) canon,
        broadcastTo (max canon.length given.length) given with
  | some _, some g => Except.ok g
  | _, _ => Except.error Err.shapeMismatch

/-- One optional angle argument of compute_SZ: canonical array when absent,
aligned override when present. -/
def resolveAngle (canon : List ℚ) : Option (List ℚ) → Except Err (List ℚ)
  | some v => alignSnd canon v
  | none => Except.ok canon

/-- TMatrix.compute_SZ: resolves the six optional angle arguments against
the canonical arrays, then dispatches on the orientation mode; the stored
state is never written. -/
def compute_SZ (K : TKernels) (t : TM) (o : Overrides) :
    Except Err (List SMat × List ZMat) := do
  let izaDeg ← resolveAngle t.izaDeg o.izaDeg
  let vzaDeg ← resolveAngle t.vzaDeg o.vzaDeg
  let iaaDeg ← resolveAngle t.iaaDeg o.iaaDeg
  let vaaDeg ← resolveAngle t.vaaDeg o.vaaDeg
  let alphaDeg ← resolveAngle t.alphaDeg o.alphaDeg
  let betaDeg ← resolveAngle t.betaDeg o.betaDeg
  if t.orient = "S" then
    pure (K.szS t.nmax t.wavelength izaDeg vzaDeg iaaDeg vaaDeg alphaDeg betaDeg)
  else if t.orient = "AF" then
    pure (K.szAF t.nmax t.wavelength izaDeg vzaDeg iaaDeg vaaDeg t.n_alpha t.n_beta t.or_pdf)
  else
    Except.error (Err.valueError "Orientation must be S or AF.")

/-- The S property: computes and stores both matrices on first access. -/
def propS (K : TKernels) (t : TM) : Except Err (TM × List SMat) :=
  match t.S? with
  | some s => Except.ok (t, property_return t.normalize false s)
  | none =>
    match compute_SZ K t noOv with
    | Except.error e => Except.error e
    | Except.ok sz =>
      Except.ok ({t with S? := some sz.1, Z? := some sz.2},
                 property_return t.normalize false sz.1)

/-- The Z property. -/
def propZ (K : TKernels) (t : TM) : Except Err (TM × List ZMat) :=
  match t.Z? with
  | some z => Except.ok (t, property_return t.normalize true z)
  | none =>
    match compute_SZ K t noOv with
    | Except.error e => Except.error e
    | Except.ok sz =>
      Except.ok ({t with S? := some sz.1, Z? := some sz.2},
                 property_return t.normalize true sz.2)

/-- The SZ property: recomputes both matrices when either is missing. -/
def propSZ (K : TKernels) (t : TM) : Except Err (TM × (List SMat × List ZMat)) :=
  match t.S?, t.Z? with
  | none, _ =>
    match compute_SZ K t noOv with
    | Except.error e => Except.error e
    | Except.ok sz =>
      Except.ok ({t with S? := some sz.1, Z? := some sz.2},
                 (property_return t.normalize false sz.1, property_return t.normalize true sz.2))
  | some _, none =>
    match compute_SZ K t noOv with
    | Except.error e => Except.error e
    | Except.ok sz =>
      Except.ok ({t with S? := some sz.1, Z? := some sz.2},
                 (property_return t.normalize false sz.1, property_return t.normalize true sz.2))
  | some s, some z =>
    Except.ok (t, (property_return t.normalize false s, property_return t.normalize true z))

/-- The extraction loop of the Snorm and Znorm properties: a 4 x 4 zero
block filled with the entries of the trailing sample X[-1, i, j].  On an
empty list the zero initialisation is kept (the source would fail there; the
list is never empty in reachable states). -/
def extractNorm {β : Type} (xs : List (Fin 4 → Fin 4 → β)) (zero : β) :
    Fin 4 → Fin 4 → β :=
  fun i j =>
    match xs.getLast? with
    | some m => m i j
    | none => zero

/-- The Snorm property: None unless normalize is set; materializes S and Z
when S is missing, then stores the trailing sample of S on first access and
returns the stored block on every later access. -/
def propSnorm (K : TKernels) (t : TM) : Except Err (TM × Option SMat) :=
  if t.normalize then
    match t.S? with
    | some s =>
      (match t.Snorm? with
       | some m => Except.ok (t, some m)
       | none =>
         let m := extractNorm s (Cx.mk 0 0)
         Except.ok ({t with Snorm? := some m}, some m))
    | none =>
      match compute_SZ K t noOv with
      | Except.error e => Except.error e
      | Except.ok sz =>
        let t1 : TM := {t with S? := some sz.1, Z? := some sz.2}
        (match t1.Snorm? with
         | some m => Except.ok (t1, some m)
         | none =>
           let m := extractNorm sz.1 (Cx.mk 0 0)
           Except.ok ({t1 with Snorm? := some m}, some m))
  else
    Except.ok (t, none)

/-- The Znorm property, symmetric to Snorm over the phase matrix Z. -/
def propZnorm (K : TKernels) (t : TM) : Except Err (TM × Option ZMat) :=
  if t.normalize then
    match t.Z? with
    | some z =>
      (match t.Znorm? with
       | some m => Except.ok (t, some m)
       | none =>
         let m := extractNorm z (0 : ℚ)
         Except.ok ({t with Znorm? := some m}, some m))
    | none =>
      match compute_SZ K t noOv with
      | Except.error e => Except.error e
      | Except.ok sz =>
        let t1 : TM := {t with S? := some sz.1, Z? := some sz.2}
        (match t1.Znorm? with
         | some m => Except.ok (t1, some m)
         | none =>
           let m := extractNorm sz.2 (0 : ℚ)
           Except.ok ({t1 with Znorm? := some m}, some m))
  else
    Except.ok (t, none)

/-- TMatrix.__dblquad: half-space integration of the phase matrix; the
iza_flag selects which direction's angles are integrated (the reshape of the
source is the identity on the per-sample block list). -/
def dblquadCalc (K : TKernels) (t : TM) (iza_flag : Bool) : Except Err (List ZMat) :=
  let xzaDeg := if iza_flag then t.vzaDeg else t.izaDeg
  let xaaDeg := if iza_flag then t.vaaDeg else t.iaaDeg
  if t.orient = "S" then
    Except.ok (K.dblquadS t.nmax t.wavelength xzaDeg xaaDeg t.alphaDeg t.betaDeg iza_flag)
  else if t.orient = "AF" then
    Except.ok (K.dblquadAF t.nmax t.wavelength xzaDeg xaaDeg t.n_alpha t.n_beta t.or_pdf iza_flag)
  else
    Except.error (Err.valueError "Orientation must be S or AF.")

/-- The dblquad property. -/
def propDblquad (K : TKernels) (t : TM) : Except Err (TM × List ZMat) :=
  match t.dblZi? with
  | some v => Except.ok (t, property_return t.normalize true v)
  | none =>
    match dblquadCalc K t true with
    | Except.error e => Except.error e
    | Except.ok v => Except.ok ({t with dblZi? := some v}, property_return t.normalize true v)

/-- TMatrix.__QS: scattering cross section kernel dispatch. -/
def qsCalc (K : TKernels) (t : TM) : Except Err KMat :=
  if t.orient = "S" then
    Except.ok (K.xsecQSs t.nmax t.wavelength t.izaDeg t.iaaDeg t.alphaDeg t.betaDeg)
  else if t.orient = "AF" then
    Except.ok (K.xsecQSaf t.nmax t.wavelength t.izaDeg t.iaaDeg t.n_alpha t.n_beta t.or_pdf)
  else
    Except.error (Err.valueError "Orientation must be S or AF.")

/-- TMatrix.__QAS: asymmetry cross section kernel dispatch. -/
def qasCalc (K : TKernels) (t : TM) : Except Err KMat :=
  if t.orient = "S" then
    Except.ok (K.xsecASYs t.nmax t.wavelength t.izaDeg t.iaaDeg t.alphaDeg t.betaDeg)
  else if t.orient = "AF" then
    Except.ok (K.xsecASYaf t.nmax t.wavelength t.izaDeg t.iaaDeg t.n_alpha t.n_beta t.or_pdf)
  else
    Except.error (Err.valueError "Orientation must be S or AF.")

/-- TMatrix.__QE: a second scattering-matrix evaluation with the viewing
zenith and azimuth pinned to the incidence zenith and azimuth, fed to the
extinction cross section kernel; the cached S is not consulted. -/
def qeCalc (K : TKernels) (t : TM) : Except Err KMat :=
  match compute_SZ K t ⟨none, some t.izaDeg, none, some t.iaaDeg, none, none⟩ with
  | Except.error e => Except.error e
  | Except.ok sz => Except.ok (K.xsecQE sz.1 t.wavelength)

/-- TMatrix.__I: scattered intensity from the Z property. -/
def iCalc (K : TKernels) (t : TM) : Except Err (TM × KMat) :=
  match propZ K t with
  | Except.error e => Except.error e
  | Except.ok r => Except.ok (r.1, K.xsecQSI r.2)

/-- TMatrix.__KE: extinction coefficient from the S property and the
factor. -/
def keCalc (K : TKernels) (t : TM) : Except Err (TM × KMat) :=
  match propS K t with
  | Except.error e => Except.error e
  | Except.ok r => Except.ok (r.1, K.keW r.1.factor r.2)

/-- Elementwise quotient of two (VV, HH) coefficient lists, modelling the
numpy elementwise array division of the source. -/
def zipDiv (a b : KMat) : KMat :=
  List.zipWith (fun x y => (x.1 / y.1, x.2 / y.2)) a b

/-- The QS property. -/
def propQS (K : TKernels) (t : TM) : Except Err (TM × KMat) :=
  match t.XS? with
  | some v => Except.ok (t, property_return t.normalize false v)
  | none =>
    match qsCalc K t with
    | Except.error e => Except.error e
    | Except.ok v => Except.ok ({t with XS? := some v}, property_return t.normalize false v)

/-- The QE property. -/
def propQE (K : TKernels) (t : TM) : Except Err (TM × KMat) :=
  match t.XE? with
  | some v => Except.ok (t, property_return t.normalize false v)
  | none =>
    match qeCalc K t with
    | Except.error e => Except.error e
    | Except.ok v => Except.ok ({t with XE? := some v}, property_return t.normalize false v)

/-- The QAS property: materializes the raw XS and XAS slots and returns
their elementwise quotient. -/
def propQAS (K : TKernels) (t : TM) : Except Err (TM × KMat) :=
  match (match t.XS? with
         | some _ => Except.ok t
         | none =>
           match qsCalc K t with
           | Except.error e => Except.error e
           | Except.ok v => Except.ok {t with XS? := some v}) with
  | Except.error e => Except.error e
  | Except.ok t1 =>
    match (match t1.XAS? with
           | some _ => Except.ok t1
           | none =>
             match qasCalc K t1 with
             | Except.error e => Except.error e
             | Except.ok v => Except.ok {t1 with XAS? := some v}) with
    | Except.error e => Except.error e
    | Except.ok t2 =>
      Except.ok (t2, property_return t2.normalize false
        (zipDiv (t2.XAS?.getD []) (t2.XS?.getD [])))

/-- The I property. -/
def propI (K : TKernels) (t : TM) : Except Err (TM × KMat) :=
  match t.XI? with
  | some v => Except.ok (t, property_return t.normalize false v)
  | none =>
    match iCalc K t with
    | Except.error e => Except.error e
    | Except.ok r => Except.ok ({r.1 with XI? := some r.2}, property_return t.normalize false r.2)

/-- The ke property. -/
def propKe (K : TKernels) (t : TM) : Except Err (TM × KMat) :=
  match t.ke? with
  | some v => Except.ok (t, property_return t.normalize false v)
  | none =>
    match keCalc K t with
    | Except.error e => Except.error e
    | Except.ok r => Except.ok ({r.1 with ke? := some r.2}, property_return t.normalize false r.2)

/-- TMatrix.__KT: transmission coefficient from the ke property. -/
def ktCalc (K : TKernels) (t : TM) : Except Err (TM × KMat) :=
  match propKe K t with
  | Except.error e => Except.error e
  | Except.ok r => Except.ok (r.1, K.ktW r.2)

/-- The kt property. -/
def propKt (K : TKernels) (t : TM) : Except Err (TM × KMat) :=
  match t.kt? with
  | some v => Except.ok (t, property_return t.normalize false v)
  | none =>
    match ktCalc K t with
    | Except.error e => Except.error e
    | Except.ok r => Except.ok ({r.1 with kt? := some r.2}, property_return t.normalize false r.2)

/-- TMatrix.__OMEGA: elementwise QS / QE through the two properties. -/
def omegaCalc (K : TKernels) (t : TM) : Except Err (TM × KMat) :=
  match propQS K t with
  | Except.error e => Except.error e
  | Except.ok r1 =>
    match propQE K r1.1 with
    | Except.error e => Except.error e
    | Except.ok r2 => Except.ok (r2.1, zipDiv r1.2 r2.2)

/-- The omega property. -/
def propOmega (K : TKernels) (t : TM) : Except Err (TM × KMat) :=
  match t.omega? with
  | some v => Except.ok (t, property_return t.normalize false v)
  | none =>
    match omegaCalc K t with
    | Except.error e => Except.error e
    | Except.ok r => Except.ok ({r.1 with omega? := some r.2}, property_return t.normalize false r.2)

/-- TMatrix.__KS: scattering coefficient from the ke and omega
properties. -/
def ksCalc (K : TKernels) (t : TM) : Except Err (TM × KMat) :=
  match propKe K t with
  | Except.error e => Except.error e
  | Except.ok r1 =>
    match propOmega K r1.1 with
    | Except.error e => Except.error e
    | Except.ok r2 => Except.ok (r2.1, K.ksW r1.2 r2.2)

/-- The ks property. -/
def propKs (K : TKernels) (t : TM) : Except Err (TM × KMat) :=
  match t.ks? with
  | some v => Except.ok (t, property_return t.normalize false v)
  | none =>
    match ksCalc K t with
    | Except.error e => Except.error e
    | Except.ok r => Except.ok ({r.1 with ks? := some r.2}, property_return t.normalize false r.2)

/-- TMatrix.__KA: absorption coefficient from the ks and omega
properties. -/
def kaCalc (K : TKernels) (t : TM) : Except Err (TM × KMat) :=
  match propKs K t with
  | Except.error e => Except.error e
  | Except.ok r1 =>
    match propOmega K r1.1 with
    | Except.error e => Except.error e
    | Except.ok r2 => Except.ok (r2.1, K.kaW r1.2 r2.2)

/-- The ka property. -/
def propKa (K : TKernels) (t : TM) : Except Err (TM × KMat) :=
  match t.ka? with
  | some v => Except.ok (t, property_return t.normalize false v)
  | none =>
    match kaCalc K t with
    | Except.error e => Except.error e
    | Except.ok r => Except.ok ({r.1 with ka? := some r.2}, property_return t.normalize false r.2)

/-- TMatrix.__NMAX: when the stored radius type is maximum (code 2), the
stored radii are converted entrywise to equal-volume radii — starting from a
zero array of the length of the incidence-angle array — and the converted
array is written back into the radius field, while the stored radius-type
code is left at 2; the truncation-order kernel then runs with code 1.  For
any other radius type the kernel runs directly. -/
def nmaxCalc (K : TKernels) (t : TM) : TM :=
  let rtr :=
    if t.radius_type = 2 then
      ((1 : ℕ), (List.range t.izaDeg.length).map fun i =>
        if h : i < t.radius.length then
          K.eqvol (t.radius.get ⟨i, h⟩) (t.axis_ratio.getD i 0) t.shape_volume
        else 0)
    else (t.radius_type, t.radius)
  let nmax := K.nmaxK rtr.2 rtr.1 t.wavelength t.epsr t.epsi t.axis_ratio t.shape_volume
  {t with nmax := nmax, radius := rtr.2}

/-- The S-and-Z step of TMatrix.__update_attributes: recompute both matrices
when either is materialized. -/
def upd_SZ (K : TKernels) (t : TM) : Except Err TM :=
  if t.S?.isSome || t.Z?.isSome then
    match compute_SZ K t noOv with
    | Except.error e => Except.error e
    | Except.ok sz => Except.ok {t with S? := some sz.1, Z? := some sz.2}
  else Except.ok t

/-- The Snorm step of __update_attributes: the source executes
self.__Snorm = self.Snorm, i.e. it assigns the result of the property
getter back into the slot. -/
def upd_Snorm (K : TKernels) (t : TM) : Except Err TM :=
  if t.Snorm?.isSome then
    match propSnorm K t with
    | Except.error e => Except.error e
    | Except.ok r => Except.ok {r.1 with Snorm? := r.2}
  else Except.ok t

/-- The Znorm step of __update_attributes: self.__Znorm = self.Znorm. -/
def upd_Znorm (K : TKernels) (t : TM) : Except Err TM :=
  if t.Znorm?.isSome then
    match propZnorm K t with
    | Except.error e => Except.error e
    | Except.ok r => Except.ok {r.1 with Znorm? := r.2}
  else Except.ok t

/-- The dblZi step of __update_attributes. -/
def upd_dbl (K : TKernels) (t : TM) : Except Err TM :=
  if t.dblZi?.isSome then
    match dblquadCalc K t true with
    | Except.error e => Except.error e
    | Except.ok v => Except.ok {t with dblZi? := some v}
  else Except.ok t

/-- The XS step of __update_attributes. -/
def upd_XS (K : TKernels) (t : TM) : Except Err TM :=
  if t.XS?.isSome then
    match qsCalc K t with
    | Except.error e => Except.error e
    | Except.ok v => Except.ok {t with XS? := some v}
  else Except.ok t

/-- The XAS step of __update_attributes. -/
def upd_XAS (K : TKernels) (t : TM) : Except Err TM :=
  if t.XAS?.isSome then
    match qasCalc K t with
    | Except.error e => Except.error e
    | Except.ok v => Except.ok {t with XAS? := some v}
  else Except.ok t

/-- The XE step of __update_attributes. -/
def upd_XE (K : TKernels) (t : TM) : Except Err TM :=
  if t.XE?.isSome then
    match qeCalc K t with
    | Except.error e => Except.error e
    | Except.ok v => Except.ok {t with XE? := some v}
  else Except.ok t

/-- The XI step of __update_attributes. -/
def upd_XI (K : TKernels) (t : TM) : Except Err TM :=
  if t.XI?.isSome then
    match iCalc K t with
    | Except.error e => Except.error e
    | Except.ok r => Except.ok {r.1 with XI? := some r.2}
  else Except.ok t

/-- The ke step of __update_attributes. -/
def upd_ke (K : TKernels) (t : TM) : Except Err TM :=
  if t.ke?.isSome then
    match keCalc K t with
    | Except.error e => Except.error e
    | Except.ok r => Except.ok {r.1 with ke? := some r.2}
  else Except.ok t

/-- The kt step of __update_attributes. -/
def upd_kt (K : TKernels) (t : TM) : Except Err TM :=
  if t.kt?.isSome then
    match ktCalc K t with
    | Except.error e => Except.error e
    | Except.ok r => Except.ok {r.1 with kt? := some r.2}
  else Except.ok t

/-- The omega step of __update_attributes. -/
def upd_omega (K : TKernels) (t : TM) : Except Err TM :=
  if t.omega?.isSome then
    match omegaCalc K t with
    | Except.error e => Except.error e
    | Except.ok r => Except.ok {r.1 with omega? := some r.2}
  else Except.ok t

/-- The ks step of __update_attributes. -/
def upd_ks (K : TKernels) (t : TM) : Except Err TM :=
  if t.ks?.isSome then
    match ksCalc K t with
    | Except.error e => Except.error e
    | Except.ok r => Except.ok {r.1 with ks? := some r.2}
  else Except.ok t

/-- The ka step of __update_attributes. -/
def upd_ka (K : TKernels) (t : TM) : Except Err TM :=
  if t.ka?.isSome then
    match kaCalc K t with
    | Except.error e => Except.error e
    | Except.ok r => Except.ok {r.1 with ka? := some r.2}
  else Except.ok t

/-- TMatrix.__update_attributes: recompute NMAX (including the radius
conversion side effect), then refresh each materialized slot in the order of
the source. -/
def update_attributes (K : TKernels) (t : TM) : Except Err TM := do
  let t := nmaxCalc K t
  let t ← upd_SZ K t
  let t ← upd_Snorm K t
  let t ← upd_Znorm K t
  let t ← upd_dbl K t
  let t ← upd_XS K t
  let t ← upd_XAS K t
  let t ← upd_XE K t
  let t ← upd_XI K t
  let t ← upd_ke K t
  let t ← upd_kt K t
  let t ← upd_omega K t
  let t ← upd_ks K t
  let t ← upd_ka K t
  pure t

/-- Angles.align_with applied to a 5-tuple of data arrays (modelled from
the spec): each datum is broadcast to the instance length L. -/
def alignWith5 (L : ℕ) (a b c d e : List ℚ) :
    Except Err (List ℚ × List ℚ × List ℚ × List ℚ × List ℚ) :=
  match broadcastTo L a, broadcastTo L b, broadcastTo L c, broadcastTo L d, broadcastTo L e with
  | some a', some b', some c', some d', some e' => Except.ok (a', b', c', d', e')
  | _, _, _, _, _ => Except.error Err.shapeMismatch

/-- Angles.align_with applied to a 6-tuple of data arrays (modelled from
the spec). -/
def alignWith6 (L : ℕ) (a b c d e f : List ℚ) :
    Except Err (List ℚ × List ℚ × List ℚ × List ℚ × List ℚ × List ℚ) :=
  match broadcastTo L a, broadcastTo L b, broadcastTo L c, broadcastTo L d,
        broadcastTo L e, broadcastTo L f with
  | some a', some b', some c', some d', some e', some f' =>
    Except.ok (a', b', c', d', e', f')
  | _, _, _, _, _, _ => Except.error Err.shapeMismatch

/-- The frequency setter: align the value with radius, axis ratio and the
permittivity arrays, push the value through the EMW object (which rederives
wavelength and wavenumber), then run __update_attributes. -/
def set_frequency (K : TKernels) (t : TM) (value : List ℚ) : Except Err TM :=
  match alignWith5 t.izaDeg.length value t.radius t.axis_ratio t.epsr t.epsi with
  | Except.error e => Except.error e
  | Except.ok (v, radius, axis_ratio, epsr, epsi) =>
    update_attributes K
      {t with radius := radius, axis_ratio := axis_ratio, epsr := epsr, epsi := epsi,
              frequency := K.emwFrequency v, wavelength := K.emwWavelength v,
              k0 := K.emwK0 v}

/-- The wavelength setter: as the frequency setter, but assigning the EMW
wavelength and re-aligning the data arrays with the EMW object
afterwards. -/
def set_wavelength (K : TKernels) (t : TM) (value : List ℚ) : Except Err TM :=
  match alignWith5 t.izaDeg.length value t.radius t.axis_ratio t.epsr t.epsi with
  | Except.error e => Except.error e
  | Except.ok (v, radius, axis_ratio, epsr, epsi) =>
    update_attributes K
      {t with radius := K.emwAlign radius, axis_ratio := K.emwAlign axis_ratio,
              epsr := K.emwAlign epsr, epsi := K.emwAlign epsi,
              wavelength := K.emwWavelengthSet v, frequency := K.emwFrequencyOfW v,
              k0 := K.emwK0OfW v}

/-- The radius setter: align, pass the new value through EMW.align_with
(the EMW-derived fields are re-read unchanged), store, update. -/
def set_radius (K : TKernels) (t : TM) (value : List ℚ) : Except Err TM :=
  match alignWith5 t.izaDeg.length value t.radius t.axis_ratio t.epsr t.epsi with
  | Except.error e => Except.error e
  | Except.ok (v, _, axis_ratio, epsr, epsi) =>
    update_attributes K
      {t with axis_ratio := axis_ratio, epsr := epsr, epsi := epsi,
              radius := K.emwAlign v}

/-- The radius_type setter: validate the key, store the code, update. -/
def set_radius_type (K : TKernels) (t : TM) (value : String) : Except Err TM :=
  match param_radius_type value with
  | none => Except.error (Err.valueError "Radius type must be REV, M or REA.")
  | some c => update_attributes K {t with radius_type := c}

/-- The axis_ratio setter. -/
def set_axis_ratio (K : TKernels) (t : TM) (value : List ℚ) : Except Err TM :=
  match alignWith5 t.izaDeg.length value t.radius t.axis_ratio t.epsr t.epsi with
  | Except.error e => Except.error e
  | Except.ok (v, radius, _, epsr, epsi) =>
    update_attributes K
      {t with radius := radius, epsr := epsr, epsi := epsi,
              axis_ratio := K.emwAlign v}

/-- The shape_volume setter: validate the key, store the code, update. -/
def set_shape_volume (K : TKernels) (t : TM) (value : String) : Except Err TM :=
  match param_shape value with
  | none => Except.error (Err.valueError "Shape must be SPH or CYL.")
  | some c => update_attributes K {t with shape_volume := c}

/-- The eps setter: the real and imaginary parts are aligned together with
the data arrays, passed through EMW.align_with, stored, then update. -/
def set_eps (K : TKernels) (t : TM) (re im : List ℚ) : Except Err TM :=
  match alignWith6 t.izaDeg.length re im t.radius t.axis_ratio t.epsr t.epsi with
  | Except.error e => Except.error e
  | Except.ok (re', im', radius, axis_ratio, _, _) =>
    update_attributes K
      {t with radius := radius, axis_ratio := axis_ratio,
              epsr := K.emwAlign re', epsi := K.emwAlign im'}

/-- The orientation setter: validate the code, store, update. -/
def set_orientation (K : TKernels) (t : TM) (value : String) : Except Err TM :=
  if value ∈ param_orientation then update_attributes K {t with orient := value}
  else Except.error (Err.valueError "Orientation must be S, AA or AF.")

/-- The orientation_pdf setter (the callable branch of __get_pdf). -/
def set_orientation_pdf (K : TKernels) (t : TM) (p : Pdf) : Except Err TM :=
  update_attributes K {t with or_pdf := p}

/-- The n_alpha setter: int(value), store, update. -/
def set_n_alpha (K : TKernels) (t : TM) (n : ℤ) : Except Err TM :=
  update_attributes K {t with n_alpha := n}

/-- The n_beta setter: int(value), store, update. -/
def set_n_beta (K : TKernels) (t : TM) (n : ℤ) : Except Err TM :=
  update_attributes K {t with n_beta := n}

/-- The parameter mutators of the TMatrix public interface. -/
inductive Mutator where
  | frequency (v : List ℚ)
  | wavelength (v : List ℚ)
  | radius (v : List ℚ)
  | radius_type (s : String)
  | axis_ratio (v : List ℚ)
  | shape_volume (s : String)
  | eps (re im : List ℚ)
  | orientation (s : String)
  | orientation_pdf (p : Pdf)
  | n_alpha (n : ℤ)
  | n_beta (n : ℤ)

/-- Dispatch a mutator to its setter. -/
def applyMutator (K : TKernels) (t : TM) : Mutator → Except Err TM
  | Mutator.frequency v => set_frequency K t v
  | Mutator.wavelength v => set_wavelength K t v
  | Mutator.radius v => set_radius K t v
  | Mutator.radius_type s => set_radius_type K t s
  | Mutator.axis_ratio v => set_axis_ratio K t v
  | Mutator.shape_volume s => set_shape_volume K t s
  | Mutator.eps re im => set_eps K t re im
  | Mutator.orientation s => set_orientation K t s
  | Mutator.orientation_pdf p => set_orientation_pdf K t p
  | Mutator.n_alpha n => set_n_alpha K t n
  | Mutator.n_beta n => set_n_beta K t n

/-- Constructor arguments of TMatrix (one value per public parameter; the
orientation PDF is passed through the callable branch of __get_pdf). -/
structure InitArgs where
  iza : List ℚ
  vza : List ℚ
  iaa : List ℚ
  vaa : List ℚ
  frequency : List ℚ
  radius : List ℚ
  epsr : List ℚ
  epsi : List ℚ
  alpha : List ℚ
  beta : List ℚ
  N : List ℚ
  radius_type : String
  shape : String
  orientation : String
  axis_ratio : List ℚ
  or_pdf : Pdf
  n_alpha : ℤ
  n_beta : ℤ
  normalize : Bool
  nbar : ℚ

/-- The common broadcast length of the twelve constructor inputs. -/
def initLen (a : InitArgs) : ℕ :=
  max a.iza.length (max a.vza.length (max a.iaa.length (max a.vaa.length
    (max a.frequency.length (max a.radius.length (max a.axis_ratio.length
    (max a.alpha.length (max a.beta.length (max a.epsr.length
    (max a.epsi.length a.N.length))))))))))

/-- TMatrix.__init__: validate the radius type, shape and orientation keys,
align the twelve inputs to one broadcast length, hand the angles to the
Angles base class (modelled from the spec: with normalize set, one trailing
nadir sample — iza = nbar, every other angle 0 — is appended and the data
arrays are re-aligned to the extended length; N is not re-aligned in the
source), derive wavelength and wavenumber through EMW, start with every
derived slot unmaterialized, and compute NMAX. -/
def init (K : TKernels) (a : InitArgs) : Except Err TM :=
  match param_radius_type a.radius_type with
  | none => Except.error (Err.valueError "Radius type must be REV, M or REA.")
  | some rtc =>
    match param_shape a.shape with
    | none => Except.error (Err.valueError "Shape must be SPH or CYL.")
    | some shc =>
      if a.orientation ∈ param_orientation then
        match broadcastTo (initLen a) a.iza, broadcastTo (initLen a) a.vza,
              broadcastTo (initLen a) a.iaa, broadcastTo (initLen a) a.vaa,
              broadcastTo (initLen a) a.frequency, broadcastTo (initLen a) a.radius,
              broadcastTo (initLen a) a.axis_ratio, broadcastTo (initLen a) a.alpha,
              broadcastTo (initLen a) a.beta, broadcastTo (initLen a) a.epsr,
              broadcastTo (initLen a) a.epsi, broadcastTo (initLen a) a.N with
        | some iza, some vza, some iaa, some vaa, some frequency, some radius,
          some axis_ratio, some alpha, some beta, some epsr, some epsi, some N =>
          let izaDeg := if a.normalize then iza ++ [a.nbar] else iza
          let vzaDeg := if a.normalize then vza ++ [0] else vza
          let iaaDeg := if a.normalize then iaa ++ [0] else iaa
          let vaaDeg := if a.normalize then vaa ++ [0] else vaa
          let alphaDeg := if a.normalize then alpha ++ [0] else alpha
          let betaDeg := if a.normalize then beta ++ [0] else beta
          let L2 := izaDeg.length
          let frequency := if a.normalize then padTo L2 frequency else frequency
          let radius := if a.normalize then padTo L2 radius else radius
          let axis_ratio := if a.normalize then padTo L2 axis_ratio else axis_ratio
          let epsr := if a.normalize then padTo L2 epsr else epsr
          let epsi := if a.normalize then padTo L2 epsi else epsi
          Except.ok (nmaxCalc K
            { izaDeg := izaDeg, vzaDeg := vzaDeg, iaaDeg := iaaDeg, vaaDeg := vaaDeg,
              alphaDeg := alphaDeg, betaDeg := betaDeg,
              normalize := a.normalize, nbar := a.nbar,
              frequency := K.emwFrequency frequency,
              wavelength := K.emwWavelength frequency,
              k0 := K.emwK0 frequency,
              radius := radius, radius_type := rtc,
              axis_ratio := axis_ratio, shape_volume := shc,
              epsr := epsr, epsi := epsi, N := N,
              orient := a.orientation, or_pdf := a.or_pdf,
              n_alpha := a.n_alpha, n_beta := a.n_beta,
              nmax := [],
              S? := none, Z? := none, Snorm? := none, Znorm? := none,
              dblZi? := none, XS? := none, XAS? := none, XE? := none, XI? := none,
              ke? := none, kt? := none, omega? := none, ks? := none, ka? := none })
        | _, _, _, _, _, _, _, _, _, _, _, _ => Except.error Err.shapeMismatch
      else Except.error (Err.valueError "Orientation must be S, AA or AF.")

/-- Observable outputs of one interface call. -/
inductive Out where
  | unit
  | szOut (s : List SMat) (z : List ZMat)
  | smatOut (s : List SMat)
  | zmatOut (z : List ZMat)
  | snormOut (m : Option SMat)
  | kmatOut (v : KMat)

/-- One call of the TMatrix public interface: a parameter mutation, a
property read, or an explicit compute_SZ query. -/
inductive Op where
  | mut (m : Mutator)
  | readS
  | readZ
  | readSnorm
  | readKe
  | readQS
  | callSZ (o : Overrides)

/-- Small-step semantics of the public interface: each call takes the state
to a successor state plus an observed output, or raises. -/
def step (K : TKernels) (t : TM) : Op → Except Err (TM × Out)
  | Op.mut m =>
    match applyMutator K t m with
    | Except.error e => Except.error e
    | Except.ok t' => Except.ok (t', Out.unit)
  | Op.readS =>
    match propS K t with
    | Except.error e => Except.error e
    | Except.ok r => Except.ok (r.1, Out.smatOut r.2)
  | Op.readZ =>
    match propZ K t with
    | Except.error e => Except.error e
    | Except.ok r => Except.ok (r.1, Out.zmatOut r.2)
  | Op.readSnorm =>
    match propSnorm K t with
    | Except.error e => Except.error e
    | Except.ok r => Except.ok (r.1, Out.snormOut r.2)
  | Op.readKe =>
    match propKe K t with
    | Except.error e => Except.error e
    | Except.ok r => Except.ok (r.1, Out.kmatOut r.2)
  | Op.readQS =>
    match propQS K t with
    | Except.error e => Except.error e
    | Except.ok r => Except.ok (r.1, Out.kmatOut r.2)
  | Op.callSZ o =>
    match compute_SZ K t o with
    | Except.error e => Except.error e
    | Except.ok sz => Except.ok (t, Out.szOut sz.1 sz.2)

/-- Dependency-closure invariant satisfied by every reachable TMatrix
state: a materialized slot has its upstream slots materialized too (each
getter touches its dependencies before storing), and the normalisation
blocks exist only in normalize mode. -/
def depInv (t : TM) : Prop :=
  (t.Z?.isSome = t.S?.isSome)
  ∧ (t.Snorm?.isSome = true → t.normalize = true ∧ t.S?.isSome = true)
  ∧ (t.Znorm?.isSome = true → t.normalize = true ∧ t.Z?.isSome = true)
  ∧ (t.XI?.isSome = true → t.Z?.isSome = true)
  ∧ (t.ke?.isSome = true → t.S?.isSome = true)
  ∧ (t.kt?.isSome = true → t.ke?.isSome = true)
  ∧ (t.omega?.isSome = true → t.XS?.isSome = true ∧ t.XE?.isSome = true)
  ∧ (t.ks?.isSome = true → t.ke?.isSome = true ∧ t.omega?.isSome = true)
  ∧ (t.ka?.isSome = true → t.ks?.isSome = true ∧ t.omega?.isSome = true)

/-- Equal materialization profile of the fourteen derived slots. -/
def slotsEq (t u : TM) : Prop :=
  u.S?.isSome = t.S?.isSome ∧ u.Z?.isSome = t.Z?.isSome
  ∧ u.Snorm?.isSome = t.Snorm?.isSome ∧ u.Znorm?.isSome = t.Znorm?.isSome
  ∧ u.dblZi?.isSome = t.dblZi?.isSome ∧ u.XS?.isSome = t.XS?.isSome
  ∧ u.XAS?.isSome = t.XAS?.isSome ∧ u.XE?.isSome = t.XE?.isSome
  ∧ u.XI?.isSome = t.XI?.isSome ∧ u.ke?.isSome = t.ke?.isSome
  ∧ u.kt?.isSome = t.kt?.isSome ∧ u.omega?.isSome = t.omega?.isSome
  ∧ u.ks?.isSome = t.ks?.isSome ∧ u.ka?.isSome = t.ka?.isSome

/-- Configuration fields no step of __update_attributes writes. -/
def cfgKeep (t u : TM) : Prop :=
  u.normalize = t.normalize ∧ u.izaDeg = t.izaDeg ∧ u.radius = t.radius
  ∧ u.radius_type = t.radius_type ∧ u.axis_ratio = t.axis_ratio

/-- A slot unmaterialized before stays unmaterialized after. -/
def nonePres (t u : TM) : Prop :=
  (t.S? = none → u.S? = none) ∧ (t.Z? = none → u.Z? = none)
  ∧ (t.Snorm? = none → u.Snorm? = none) ∧ (t.Znorm? = none → u.Znorm? = none)
  ∧ (t.dblZi? = none → u.dblZi? = none) ∧ (t.XS? = none → u.XS? = none)
  ∧ (t.XAS? = none → u.XAS? = none) ∧ (t.XE? = none → u.XE? = none)
  ∧ (t.XI? = none → u.XI? = none) ∧ (t.ke? = none → u.ke? = none)
  ∧ (t.kt? = none → u.kt? = none) ∧ (t.omega? = none → u.omega? = none)
  ∧ (t.ks? = none → u.ks? = none) ∧ (t.ka? = none → u.ka? = none)

/-- The radius property: it returns the stored radius array, i.e. the
converted one after any NMAX recomputation. -/
def radiusProp (t : TM) : List ℚ := t.radius

/-- Concrete kernel instantiation for the closed executions below: the EMW
maps are the identity (so the numeric wavelength equals the numeric
frequency), the scattering kernels return blocks determined by the
wavelength (so that a frequency mutation changes S and Z), and the
equal-volume conversion negates the radius (an arithmetic-free involution,
so the closed executions reduce and repeated conversion is visible). -/
def Kdemo : TKernels where
  emwFrequency := fun v => v
  emwWavelength := fun v => v
  emwK0 := fun v => v
  emwWavelengthSet := fun v => v
  emwFrequencyOfW := fun v => v
  emwK0OfW := fun v => v
  emwAlign := fun v => v
  eqvol := fun r _ _ => -r
  nmaxK := fun _ _ wl _ _ _ _ => wl.map (fun _ => 3)
  szS := fun _ wl _ _ _ _ _ _ =>
    (wl.map (fun w => fun _ _ => Cx.mk w 0), wl.map (fun w => fun _ _ => w))
  szAF := fun _ wl _ _ _ _ _ _ _ =>
    (wl.map (fun w => fun _ _ => Cx.mk w 0), wl.map (fun w => fun _ _ => w))
  dblquadS := fun _ wl _ _ _ _ _ => wl.map (fun w => fun _ _ => w)
  dblquadAF := fun _ wl _ _ _ _ _ _ => wl.map (fun w => fun _ _ => w)
  xsecQSs := fun _ wl _ _ _ _ => wl.map (fun w => (w, w))
  xsecQSaf := fun _ wl _ _ _ _ _ => wl.map (fun w => (w, w))
  xsecASYs := fun _ wl _ _ _ _ => wl.map (fun w => (w, w))
  xsecASYaf := fun _ wl _ _ _ _ _ => wl.map (fun w => (w, w))
  xsecQE := fun _ wl => wl.map (fun w => (w, w))
  xsecQSI := fun z => z.map (fun m => (m 0 0, m 0 0))
  keW := fun _ s => s.map (fun m => ((m 0 0).re, (m 0 0).re))
  ktW := fun v => v
  ksW := fun v _ => v
  kaW := fun v _ => v

/-- Constructor arguments of a small normalized instance: one sample,
frequency 1, single orientation. -/
def argsA : InitArgs where
  iza := [30]
  vza := [30]
  iaa := [0]
  vaa := [0]
  frequency := [1]
  radius := [1]
  epsr := [3]
  epsi := [0]
  alpha := [0]
  beta := [0]
  N := [1]
  radius_type := "REV"
  shape := "SPH"
  orientation := "S"
  axis_ratio := [1]
  or_pdf := fun _ => 0
  n_alpha := 5
  n_beta := 10
  normalize := true
  nbar := 0

/-- The same configuration with the final frequency 2 of the mutation
scenario: the fresh-construction reference. -/
def argsB : InitArgs := {argsA with frequency := [2]}

/-- State after construction with argsA. -/
def tA : TM := (init Kdemo argsA).toOption.getD default

/-- State after reading the Snorm property once (S, Z and Snorm are now
materialized). -/
def tA1 : TM := ((propSnorm Kdemo tA).toOption.map Prod.fst).getD default

/-- State after then mutating the frequency to 2. -/
def tA2 : TM := (applyMutator Kdemo tA1 (Mutator.frequency [2, 2])).toOption.getD default

/-- Fresh construction with the final configuration. -/
def tB : TM := (init Kdemo argsB).toOption.getD default

/-- State after one further laziness-test mutation of tA1. -/
def tC2 : TM := (applyMutator Kdemo tA1 (Mutator.n_alpha 7)).toOption.getD default

/-- An instance constructed with the averaged-adaptive orientation code. -/
def argsAA : InitArgs := {argsA with orientation := "AA", normalize := false}

/-- State after construction with orientation AA. -/
def tAA : TM := (init Kdemo argsAA).toOption.getD default

/-- Constructor arguments with maximum-radius type and radius 8. -/
def argsM : InitArgs := {argsA with radius_type := "M", radius := [8], normalize := false}

/-- State after construction with the maximum-radius type. -/
def tM : TM := (init Kdemo argsM).toOption.getD default

/-- State after one mutator call on tM. -/
def tM1 : TM := (applyMutator Kdemo tM (Mutator.n_alpha 7)).toOption.getD default

/-- State after a second mutator call. -/
def tM2 : TM := (applyMutator Kdemo tM1 (Mutator.n_alpha 9)).toOption.getD default

/-- A pure-query override: an explicit viewing zenith of 10 degrees. -/
def ovDemo : Overrides := ⟨none, some [10], none, none, none, none⟩

/-- Result of the override query on tA. -/
def pC4 : TM × Out := (step Kdemo tA (Op.callSZ ovDemo)).toOption.getD (tA, Out.unit)

end TMatrix

namespace I2EM

/-- Concrete I2EM kernels for the closed executions below: the cosine is
the polynomial 1 - x ^ 2 (enough to witness that the 0.01 offset changes the
factor), the other kernels are constants. -/
def IKdemo : IK where
  cosf := fun x => 1 - x ^ 2
  expf := fun x => x
  log10f := fun x => x
  refl := fun _ _ _ _ _ _ _ => (⟨0, 0⟩, ⟨0, 0⟩, ⟨0, 0⟩, 0, 1)
  corr := fun _ _ _ _ _ => ([1], 1)
  rtrans := fun _ _ _ _ _ _ _ => (⟨0, 0⟩, ⟨0, 0⟩, ⟨0, 0⟩)
  raInt := fun _ _ _ _ => (⟨0, 0⟩, ⟨0, 0⟩)
  bico := fun _ _ _ _ _ _ _ _ _ _ => (⟨0, 0⟩, ⟨0, 0⟩, ⟨0, 0⟩, ⟨0, 0⟩)
  ipp := fun _ _ _ _ _ _ _ _ _ _ _ _ _ _ => ([⟨1, 0⟩], [⟨0, 0⟩])
  shad := fun _ _ _ _ => 1

/-- Concrete emissivity kernels for the closed executions below. -/
def EKdemo : EK where
  cosf := fun x => x
  sinf := fun x => x
  expf := fun x => x
  log10f := fun x => x
  csqrt := fun _ => ⟨0, 0⟩
  exponential_ems := fun _ _ => 0
  gaussian_ems := fun _ _ => 0
  mixed_ems := fun _ _ => 0
  dblquadE := fun _ _ _ _ _ _ _ _ _ _ _ _ _ _ _ => (0, 0)
  piE := 3

/-- A concrete emissivity run. -/
def emsDemo : Except Err EmsRes := emissivity_run EKdemo 0 0 0 1 ⟨1, 0⟩ 1 1 "exponential"

/-- Its result state. -/
def emsDemoRes : EmsRes := emsDemo.toOption.getD default

end I2EM

namespace TMatrix

theorem slotsEq_refl (t : TM) : slotsEq t t :=
  ⟨rfl, rfl, rfl, rfl, rfl, rfl, rfl, rfl, rfl, rfl, rfl, rfl, rfl, rfl⟩

theorem slotsEq_trans {t u v : TM} (h : slotsEq t u) (g : slotsEq u v) : slotsEq t v := by
  obtain ⟨h1, h2, h3, h4, h5, h6, h7, h8, h9, h10, h11, h12, h13, h14⟩ := h
  obtain ⟨g1, g2, g3, g4, g5, g6, g7, g8, g9, g10, g11, g12, g13, g14⟩ := g
  exact ⟨g1.trans h1, g2.trans h2, g3.trans h3, g4.trans h4, g5.trans h5, g6.trans h6,
    g7.trans h7, g8.trans h8, g9.trans h9, g10.trans h10, g11.trans h11, g12.trans h12,
    g13.trans h13, g14.trans h14⟩

theorem cfgKeep_refl (t : TM) : cfgKeep t t := ⟨rfl, rfl, rfl, rfl, rfl⟩

theorem cfgKeep_trans {t u v : TM} (h : cfgKeep t u) (g : cfgKeep u v) : cfgKeep t v := by
  obtain ⟨h1, h2, h3, h4, h5⟩ := h
  obtain ⟨g1, g2, g3, g4, g5⟩ := g
  exact ⟨g1.trans h1, g2.trans h2, g3.trans h3, g4.trans h4, g5.trans h5⟩

/-- The invariant depends only on the materialization profile and the
normalize flag, so it transfers along them. -/
theorem depInv_transfer {t u : TM} (hs : slotsEq t u) (hn : u.normalize = t.normalize)
    (hi : depInv t) : depInv u := by
  obtain ⟨h1, h2, h3, h4, h5, h6, h7, h8, h9, h10, h11, h12, h13, h14⟩ := hs
  unfold depInv
  rw [h1, h2, h3, h4, h6, h8, h9, h10, h11, h12, h13, h14, hn]
  exact hi

theorem none_of_isSome_eq {α : Type} {a b : Option α} (h : b.isSome = a.isSome)
    (ha : a = none) : b = none := by
  cases b with
  | none => rfl
  | some v => subst ha; simp at h

theorem nonePres_of_slotsEq {t u : TM} (h : slotsEq t u) : nonePres t u := by
  obtain ⟨h1, h2, h3, h4, h5, h6, h7, h8, h9, h10, h11, h12, h13, h14⟩ := h
  exact ⟨none_of_isSome_eq h1, none_of_isSome_eq h2, none_of_isSome_eq h3,
    none_of_isSome_eq h4, none_of_isSome_eq h5, none_of_isSome_eq h6,
    none_of_isSome_eq h7, none_of_isSome_eq h8, none_of_isSome_eq h9,
    none_of_isSome_eq h10, none_of_isSome_eq h11, none_of_isSome_eq h12,
    none_of_isSome_eq h13, none_of_isSome_eq h14⟩

theorem bindOk {α β : Type} {x : Except Err α} {f : α → Except Err β} {b : β}
    (h : x >>= f = Except.ok b) : ∃ a, x = Except.ok a ∧ f a = Except.ok b := by
  cases x with
  | error e => simp [Bind.bind, Except.bind] at h
  | ok a => exact ⟨a, rfl, by simpa [Bind.bind, Except.bind] using h⟩

/-- A materialized S slot makes the S property a pure read. -/
theorem propS_some (K : TKernels) {t : TM} {s : List SMat} (h : t.S? = some s) :
    propS K t = Except.ok (t, property_return t.normalize false s) := by
  unfold propS; rw [h]

theorem propZ_some (K : TKernels) {t : TM} {z : List ZMat} (h : t.Z? = some z) :
    propZ K t = Except.ok (t, property_return t.normalize true z) := by
  unfold propZ; rw [h]

theorem propQS_some (K : TKernels) {t : TM} {v : KMat} (h : t.XS? = some v) :
    propQS K t = Except.ok (t, property_return t.normalize false v) := by
  unfold propQS; rw [h]

theorem propQE_some (K : TKernels) {t : TM} {v : KMat} (h : t.XE? = some v) :
    propQE K t = Except.ok (t, property_return t.normalize false v) := by
  unfold propQE; rw [h]

theorem propKe_some (K : TKernels) {t : TM} {v : KMat} (h : t.ke? = some v) :
    propKe K t = Except.ok (t, property_return t.normalize false v) := by
  unfold propKe; rw [h]

theorem propOmega_some (K : TKernels) {t : TM} {v : KMat} (h : t.omega? = some v) :
    propOmega K t = Except.ok (t, property_return t.normalize false v) := by
  unfold propOmega; rw [h]

theorem propKs_some (K : TKernels) {t : TM} {v : KMat} (h : t.ks? = some v) :
    propKs K t = Except.ok (t, property_return t.normalize false v) := by
  unfold propKs; rw [h]

/-- A stored Snorm block is returned as is by the Snorm property. -/
theorem propSnorm_stored (K : TKernels) {t : TM} {s : List SMat} {m : SMat}
    (hn : t.normalize = true) (hs : t.S? = some s) (hm : t.Snorm? = some m) :
    propSnorm K t = Except.ok (t, some m) := by
  unfold propSnorm; rw [hn, hs]; simp [hm]

theorem propZnorm_stored (K : TKernels) {t : TM} {z : List ZMat} {m : ZMat}
    (hn : t.normalize = true) (hz : t.Z? = some z) (hm : t.Znorm? = some m) :
    propZnorm K t = Except.ok (t, some m) := by
  unfold propZnorm; rw [hn, hz]; simp [hm]

theorem iCalc_some (K : TKernels) {t : TM} {z : List ZMat} (h : t.Z? = some z) :
    iCalc K t = Except.ok (t, K.xsecQSI (property_return t.normalize true z)) := by
  unfold iCalc; rw [propZ_some K h]

theorem keCalc_some (K : TKernels) {t : TM} {s : List SMat} (h : t.S? = some s) :
    keCalc K t = Except.ok (t, K.keW t.factor (property_return t.normalize false s)) := by
  unfold keCalc; rw [propS_some K h]

theorem ktCalc_some (K : TKernels) {t : TM} {v : KMat} (h : t.ke? = some v) :
    ktCalc K t = Except.ok (t, K.ktW (property_return t.normalize false v)) := by
  unfold ktCalc; rw [propKe_some K h]

theorem omegaCalc_some (K : TKernels) {t : TM} {vs ve : KMat}
    (hs : t.XS? = some vs) (he : t.XE? = some ve) :
    omegaCalc K t = Except.ok (t, zipDiv (property_return t.normalize false vs)
      (property_return t.normalize false ve)) := by
  unfold omegaCalc; simp [propQS_some K hs, propQE_some K he]

theorem ksCalc_some (K : TKernels) {t : TM} {ve vo : KMat}
    (he : t.ke? = some ve) (ho : t.omega? = some vo) :
    ksCalc K t = Except.ok (t, K.ksW (property_return t.normalize false ve)
      (property_return t.normalize false vo)) := by
  unfold ksCalc; simp [propKe_some K he, propOmega_some K ho]

theorem kaCalc_some (K : TKernels) {t : TM} {vs vo : KMat}
    (hs : t.ks? = some vs) (ho : t.omega? = some vo) :
    kaCalc K t = Except.ok (t, K.kaW (property_return t.normalize false vs)
      (property_return t.normalize false vo)) := by
  unfold kaCalc; simp [propKs_some K hs, propOmega_some K ho]

/-- Effect of the S-and-Z refresh step on the materialization profile. -/
theorem upd_SZ_spec (K : TKernels) {t u : TM} (hinv : depInv t)
    (h : upd_SZ K t = Except.ok u) : slotsEq t u ∧ cfgKeep t u := by
  obtain ⟨hZS, hSn, hZn, hXI, hKe, hKt, hOm, hKs, hKa⟩ := hinv
  unfold upd_SZ at h
  split at h
  case isTrue hc =>
    split at h
    case h_1 => simp at h
    case h_2 sz hsz =>
      simp only [Except.ok.injEq] at h
      subst h
      have hS : t.S?.isSome = true := by rw [hZS, Bool.or_self] at hc; exact hc
      exact ⟨⟨by simp [hS], by simp [hZS, hS], rfl, rfl, rfl, rfl, rfl, rfl, rfl, rfl,
        rfl, rfl, rfl, rfl⟩, rfl, rfl, rfl, rfl, rfl⟩
  case isFalse hc =>
    simp only [Except.ok.injEq] at h
    subst h
    exact ⟨slotsEq_refl t, cfgKeep_refl t⟩

/-- Effect of the Snorm step: the stored block is re-assigned unchanged. -/
theorem upd_Snorm_spec (K : TKernels) {t u : TM} (hinv : depInv t)
    (h : upd_Snorm K t = Except.ok u) : slotsEq t u ∧ cfgKeep t u := by
  obtain ⟨hZS, hSn, hZn, hXI, hKe, hKt, hOm, hKs, hKa⟩ := hinv
  unfold upd_Snorm at h
  split at h
  case isTrue hc =>
    obtain ⟨hn, hS⟩ := hSn hc
    obtain ⟨s, hs⟩ := Option.isSome_iff_exists.mp hS
    obtain ⟨m, hm⟩ := Option.isSome_iff_exists.mp hc
    rw [propSnorm_stored K hn hs hm] at h
    simp only [Except.ok.injEq] at h
    subst h
    exact ⟨⟨rfl, rfl, by simp [hc], rfl, rfl, rfl, rfl, rfl, rfl, rfl, rfl, rfl, rfl,
      rfl⟩, rfl, rfl, rfl, rfl, rfl⟩
  case isFalse hc =>
    simp only [Except.ok.injEq] at h
    subst h
    exact ⟨slotsEq_refl t, cfgKeep_refl t⟩

/-- Effect of the Znorm step: the stored block is re-assigned unchanged. -/
theorem upd_Znorm_spec (K : TKernels) {t u : TM} (hinv : depInv t)
    (h : upd_Znorm K t = Except.ok u) : slotsEq t u ∧ cfgKeep t u := by
  obtain ⟨hZS, hSn, hZn, hXI, hKe, hKt, hOm, hKs, hKa⟩ := hinv
  unfold upd_Znorm at h
  split at h
  case isTrue hc =>
    obtain ⟨hn, hZ⟩ := hZn hc
    obtain ⟨z, hz⟩ := Option.isSome_iff_exists.mp hZ
    obtain ⟨m, hm⟩ := Option.isSome_iff_exists.mp hc
    rw [propZnorm_stored K hn hz hm] at h
    simp only [Except.ok.injEq] at h
    subst h
    exact ⟨⟨rfl, rfl, rfl, by simp [hc], rfl, rfl, rfl, rfl, rfl, rfl, rfl, rfl, rfl,
      rfl⟩, rfl, rfl, rfl, rfl, rfl⟩
  case isFalse hc =>
    simp only [Except.ok.injEq] at h
    subst h
    exact ⟨slotsEq_refl t, cfgKeep_refl t⟩

/-- Effect of the dblZi step. -/
theorem upd_dbl_spec (K : TKernels) {t u : TM}
    (h : upd_dbl K t = Except.ok u) : slotsEq t u ∧ cfgKeep t u := by
  unfold upd_dbl at h
  split at h
  case isTrue hc =>
    split at h
    case h_1 => simp at h
    case h_2 v hv =>
      simp only [Except.ok.injEq] at h
      subst h
      exact ⟨⟨rfl, rfl, rfl, rfl, by simp [hc], rfl, rfl, rfl, rfl, rfl, rfl, rfl, rfl,
        rfl⟩, rfl, rfl, rfl, rfl, rfl⟩
  case isFalse hc =>
    simp only [Except.ok.injEq] at h
    subst h
    exact ⟨slotsEq_refl t, cfgKeep_refl t⟩

/-- Effect of the XS step. -/
theorem upd_XS_spec (K : TKernels) {t u : TM}
    (h : upd_XS K t = Except.ok u) : slotsEq t u ∧ cfgKeep t u := by
  unfold upd_XS at h
  split at h
  case isTrue hc =>
    split at h
    case h_1 => simp at h
    case h_2 v hv =>
      simp only [Except.ok.injEq] at h
      subst h
      exact ⟨⟨rfl, rfl, rfl, rfl, rfl, by simp [hc], rfl, rfl, rfl, rfl, rfl, rfl, rfl,
        rfl⟩, rfl, rfl, rfl, rfl, rfl⟩
  case isFalse hc =>
    simp only [Except.ok.injEq] at h
    subst h
    exact ⟨slotsEq_refl t, cfgKeep_refl t⟩

/-- Effect of the XAS step. -/
theorem upd_XAS_spec (K : TKernels) {t u : TM}
    (h : upd_XAS K t = Except.ok u) : slotsEq t u ∧ cfgKeep t u := by
  unfold upd_XAS at h
  split at h
  case isTrue hc =>
    split at h
    case h_1 => simp at h
    case h_2 v hv =>
      simp only [Except.ok.injEq] at h
      subst h
      exact ⟨⟨rfl, rfl, rfl, rfl, rfl, rfl, by simp [hc], rfl, rfl, rfl, rfl, rfl, rfl,
        rfl⟩, rfl, rfl, rfl, rfl, rfl⟩
  case isFalse hc =>
    simp only [Except.ok.injEq] at h
    subst h
    exact ⟨slotsEq_refl t, cfgKeep_refl t⟩

/-- Effect of the XE step. -/
theorem upd_XE_spec (K : TKernels) {t u : TM}
    (h : upd_XE K t = Except.ok u) : slotsEq t u ∧ cfgKeep t u := by
  unfold upd_XE at h
  split at h
  case isTrue hc =>
    split at h
    case h_1 => simp at h
    case h_2 v hv =>
      simp only [Except.ok.injEq] at h
      subst h
      exact ⟨⟨rfl, rfl, rfl, rfl, rfl, rfl, rfl, by simp [hc], rfl, rfl, rfl, rfl, rfl,
        rfl⟩, rfl, rfl, rfl, rfl, rfl⟩
  case isFalse hc =>
    simp only [Except.ok.injEq] at h
    subst h
    exact ⟨slotsEq_refl t, cfgKeep_refl t⟩

/-- Effect of the XI step: the Z property it reads is already
materialized. -/
theorem upd_XI_spec (K : TKernels) {t u : TM} (hinv : depInv t)
    (h : upd_XI K t = Except.ok u) : slotsEq t u ∧ cfgKeep t u := by
  obtain ⟨hZS, hSn, hZn, hXI, hKe, hKt, hOm, hKs, hKa⟩ := hinv
  unfold upd_XI at h
  split at h
  case isTrue hc =>
    obtain ⟨z, hz⟩ := Option.isSome_iff_exists.mp (hXI hc)
    rw [iCalc_some K hz] at h
    simp only [Except.ok.injEq] at h
    subst h
    exact ⟨⟨rfl, rfl, rfl, rfl, rfl, rfl, rfl, rfl, by simp [hc], rfl, rfl, rfl, rfl,
      rfl⟩, rfl, rfl, rfl, rfl, rfl⟩
  case isFalse hc =>
    simp only [Except.ok.injEq] at h
    subst h
    exact ⟨slotsEq_refl t, cfgKeep_refl t⟩

/-- Effect of the ke step: the S property it reads is already
materialized. -/
theorem upd_ke_spec (K : TKernels) {t u : TM} (hinv : depInv t)
    (h : upd_ke K t = Except.ok u) : slotsEq t u ∧ cfgKeep t u := by
  obtain ⟨hZS, hSn, hZn, hXI, hKe, hKt, hOm, hKs, hKa⟩ := hinv
  unfold upd_ke at h
  split at h
  case isTrue hc =>
    obtain ⟨s, hs⟩ := Option.isSome_iff_exists.mp (hKe hc)
    rw [keCalc_some K hs] at h
    simp only [Except.ok.injEq] at h
    subst h
    exact ⟨⟨rfl, rfl, rfl, rfl, rfl, rfl, rfl, rfl, rfl, by simp [hc], rfl, rfl, rfl,
      rfl⟩, rfl, rfl, rfl, rfl, rfl⟩
  case isFalse hc =>
    simp only [Except.ok.injEq] at h
    subst h
    exact ⟨slotsEq_refl t, cfgKeep_refl t⟩

/-- Effect of the kt step: the ke property it reads is already
materialized. -/
theorem upd_kt_spec (K : TKernels) {t u : TM} (hinv : depInv t)
    (h : upd_kt K t = Except.ok u) : slotsEq t u ∧ cfgKeep t u := by
  obtain ⟨hZS, hSn, hZn, hXI, hKe, hKt, hOm, hKs, hKa⟩ := hinv
  unfold upd_kt at h
  split at h
  case isTrue hc =>
    obtain ⟨v, hv⟩ := Option.isSome_iff_exists.mp (hKt hc)
    rw [ktCalc_some K hv] at h
    simp only [Except.ok.injEq] at h
    subst h
    exact ⟨⟨rfl, rfl, rfl, rfl, rfl, rfl, rfl, rfl, rfl, rfl, by simp [hc], rfl, rfl,
      rfl⟩, rfl, rfl, rfl, rfl, rfl⟩
  case isFalse hc =>
    simp only [Except.ok.injEq] at h
    subst h
    exact ⟨slotsEq_refl t, cfgKeep_refl t⟩

/-- Effect of the omega step: the QS and QE properties it reads are already
materialized. -/
theorem upd_omega_spec (K : TKernels) {t u : TM} (hinv : depInv t)
    (h : upd_omega K t = Except.ok u) : slotsEq t u ∧ cfgKeep t u := by
  obtain ⟨hZS, hSn, hZn, hXI, hKe, hKt, hOm, hKs, hKa⟩ := hinv
  unfold upd_omega at h
  split at h
  case isTrue hc =>
    obtain ⟨hXS, hXE⟩ := hOm hc
    obtain ⟨vs, hvs⟩ := Option.isSome_iff_exists.mp hXS
    obtain ⟨ve, hve⟩ := Option.isSome_iff_exists.mp hXE
    rw [omegaCalc_some K hvs hve] at h
    simp only [Except.ok.injEq] at h
    subst h
    exact ⟨⟨rfl, rfl, rfl, rfl, rfl, rfl, rfl, rfl, rfl, rfl, rfl, by simp [hc], rfl,
      rfl⟩, rfl, rfl, rfl, rfl, rfl⟩
  case isFalse hc =>
    simp only [Except.ok.injEq] at h
    subst h
    exact ⟨slotsEq_refl t, cfgKeep_refl t⟩

/-- Effect of the ks step: the ke and omega properties it reads are already
materialized. -/
theorem upd_ks_spec (K : TKernels) {t u : TM} (hinv : depInv t)
    (h : upd_ks K t = Except.ok u) : slotsEq t u ∧ cfgKeep t u := by
  obtain ⟨hZS, hSn, hZn, hXI, hKe, hKt, hOm, hKs, hKa⟩ := hinv
  unfold upd_ks at h
  split at h
  case isTrue hc =>
    obtain ⟨hke, hom⟩ := hKs hc
    obtain ⟨ve, hve⟩ := Option.isSome_iff_exists.mp hke
    obtain ⟨vo, hvo⟩ := Option.isSome_iff_exists.mp hom
    rw [ksCalc_some K hve hvo] at h
    simp only [Except.ok.injEq] at h
    subst h
    exact ⟨⟨rfl, rfl, rfl, rfl, rfl, rfl, rfl, rfl, rfl, rfl, rfl, rfl, by simp [hc],
      rfl⟩, rfl, rfl, rfl, rfl, rfl⟩
  case isFalse hc =>
    simp only [Except.ok.injEq] at h
    subst h
    exact ⟨slotsEq_refl t, cfgKeep_refl t⟩

/-- Effect of the ka step: the ks and omega properties it reads are already
materialized. -/
theorem upd_ka_spec (K : TKernels) {t u : TM} (hinv : depInv t)
    (h : upd_ka K t = Except.ok u) : slotsEq t u ∧ cfgKeep t u := by
  obtain ⟨hZS, hSn, hZn, hXI, hKe, hKt, hOm, hKs, hKa⟩ := hinv
  unfold upd_ka at h
  split at h
  case isTrue hc =>
    obtain ⟨hks, hom⟩ := hKa hc
    obtain ⟨vs, hvs⟩ := Option.isSome_iff_exists.mp hks
    obtain ⟨vo, hvo⟩ := Option.isSome_iff_exists.mp hom
    rw [kaCalc_some K hvs hvo] at h
    simp only [Except.ok.injEq] at h
    subst h
    exact ⟨⟨rfl, rfl, rfl, rfl, rfl, rfl, rfl, rfl, rfl, rfl, rfl, rfl, rfl,
      by simp [hc]⟩, rfl, rfl, rfl, rfl, rfl⟩
  case isFalse hc =>
    simp only [Except.ok.injEq] at h
    subst h
    exact ⟨slotsEq_refl t, cfgKeep_refl t⟩

/-- Combined effect of TMatrix.__update_attributes on a state satisfying
the dependency-closure invariant: the materialization profile is preserved
(no slot appears or disappears), the normalize flag and angle arrays are
untouched, and the radius field carries exactly the write-back of the NMAX
recomputation. -/
theorem update_spec (K : TKernels) {t u : TM} (hinv : depInv t)
    (h : update_attributes K t = Except.ok u) :
    slotsEq t u ∧ u.normalize = t.normalize ∧ u.izaDeg = t.izaDeg
    ∧ u.radius = (nmaxCalc K t).radius ∧ u.radius_type = t.radius_type
    ∧ u.axis_ratio = t.axis_ratio := by
  unfold update_attributes at h
  have e0 : slotsEq t (nmaxCalc K t) :=
    ⟨rfl, rfl, rfl, rfl, rfl, rfl, rfl, rfl, rfl, rfl, rfl, rfl, rfl, rfl⟩
  have hinv0 : depInv (nmaxCalc K t) := hinv
  obtain ⟨t1, h1, h⟩ := bindOk h
  obtain ⟨s1, c1⟩ := upd_SZ_spec K hinv0 h1
  have hinv1 : depInv t1 := depInv_transfer s1 c1.1 hinv0
  obtain ⟨t2, h2, h⟩ := bindOk h
  obtain ⟨s2, c2⟩ := upd_Snorm_spec K hinv1 h2
  have hinv2 : depInv t2 := depInv_transfer s2 c2.1 hinv1
  obtain ⟨t3, h3, h⟩ := bindOk h
  obtain ⟨s3, c3⟩ := upd_Znorm_spec K hinv2 h3
  have hinv3 : depInv t3 := depInv_transfer s3 c3.1 hinv2
  obtain ⟨t4, h4, h⟩ := bindOk h
  obtain ⟨s4, c4⟩ := upd_dbl_spec K h4
  have hinv4 : depInv t4 := depInv_transfer s4 c4.1 hinv3
  obtain ⟨t5, h5, h⟩ := bindOk h
  obtain ⟨s5, c5⟩ := upd_XS_spec K h5
  have hinv5 : depInv t5 := depInv_transfer s5 c5.1 hinv4
  obtain ⟨t6, h6, h⟩ := bindOk h
  obtain ⟨s6, c6⟩ := upd_XAS_spec K h6
  have hinv6 : depInv t6 := depInv_transfer s6 c6.1 hinv5
  obtain ⟨t7, h7, h⟩ := bindOk h
  obtain ⟨s7, c7⟩ := upd_XE_spec K h7
  have hinv7 : depInv t7 := depInv_transfer s7 c7.1 hinv6
  obtain ⟨t8, h8, h⟩ := bindOk h
  obtain ⟨s8, c8⟩ := upd_XI_spec K hinv7 h8
  have hinv8 : depInv t8 := depInv_transfer s8 c8.1 hinv7
  obtain ⟨t9, h9, h⟩ := bindOk h
  obtain ⟨s9, c9⟩ := upd_ke_spec K hinv8 h9
  have hinv9 : depInv t9 := depInv_transfer s9 c9.1 hinv8
  obtain ⟨t10, h10, h⟩ := bindOk h
  obtain ⟨s10, c10⟩ := upd_kt_spec K hinv9 h10
  have hinv10 : depInv t10 := depInv_transfer s10 c10.1 hinv9
  obtain ⟨t11, h11, h⟩ := bindOk h
  obtain ⟨s11, c11⟩ := upd_omega_spec K hinv10 h11
  have hinv11 : depInv t11 := depInv_transfer s11 c11.1 hinv10
  obtain ⟨t12, h12, h⟩ := bindOk h
  obtain ⟨s12, c12⟩ := upd_ks_spec K hinv11 h12
  have hinv12 : depInv t12 := depInv_transfer s12 c12.1 hinv11
  obtain ⟨t13, h13, h⟩ := bindOk h
  obtain ⟨s13, c13⟩ := upd_ka_spec K hinv12 h13
  have hu : t13 = u := by simpa [Pure.pure, Except.pure] using h
  subst hu
  have sAll : slotsEq (nmaxCalc K t) t13 :=
    slotsEq_trans s1 (slotsEq_trans s2 (slotsEq_trans s3 (slotsEq_trans s4
      (slotsEq_trans s5 (slotsEq_trans s6 (slotsEq_trans s7 (slotsEq_trans s8
      (slotsEq_trans s9 (slotsEq_trans s10 (slotsEq_trans s11 (slotsEq_trans s12
      s13)))))))))))
  have cAll : cfgKeep (nmaxCalc K t) t13 :=
    cfgKeep_trans c1 (cfgKeep_trans c2 (cfgKeep_trans c3 (cfgKeep_trans c4
      (cfgKeep_trans c5 (cfgKeep_trans c6 (cfgKeep_trans c7 (cfgKeep_trans c8
      (cfgKeep_trans c9 (cfgKeep_trans c10 (cfgKeep_trans c11 (cfgKeep_trans c12
      c13)))))))))))
  exact ⟨slotsEq_trans e0 sAll, cAll.1, cAll.2.1, cAll.2.2.1, cAll.2.2.2.1,
    cAll.2.2.2.2⟩

/-- Composition used per mutator: the setter writes only configuration
fields, then __update_attributes preserves the materialization profile. -/
theorem lazy_of_update (K : TKernels) {t t' u : TM}
    (h : update_attributes K t' = Except.ok u) (hslots : slotsEq t t')
    (hnorm : t'.normalize = t.normalize) (hinv : depInv t) : nonePres t u :=
  nonePres_of_slotsEq (slotsEq_trans hslots
    (update_spec K (depInv_transfer hslots hnorm hinv) h).1)

/-- C2 core: a successful mutator call leaves every slot that was
unmaterialized before the call unmaterialized after it. -/
theorem mutator_lazy (K : TKernels) (m : Mutator) {t u : TM} (hinv : depInv t)
    (h : applyMutator K t m = Except.ok u) : nonePres t u := by
  cases m with
  | frequency v =>
    replace h : set_frequency K t v = Except.ok u := h
    unfold set_frequency at h
    split at h
    case h_1 => simp at h
    case h_2 a b c d e _ =>
      exact lazy_of_update K h
        ⟨rfl, rfl, rfl, rfl, rfl, rfl, rfl, rfl, rfl, rfl, rfl, rfl, rfl, rfl⟩
        rfl hinv
  | wavelength v =>
    replace h : set_wavelength K t v = Except.ok u := h
    unfold set_wavelength at h
    split at h
    case h_1 => simp at h
    case h_2 a b c d e _ =>
      exact lazy_of_update K h
        ⟨rfl, rfl, rfl, rfl, rfl, rfl, rfl, rfl, rfl, rfl, rfl, rfl, rfl, rfl⟩
        rfl hinv
  | radius v =>
    replace h : set_radius K t v = Except.ok u := h
    unfold set_radius at h
    split at h
    case h_1 => simp at h
    case h_2 a b c d e _ =>
      exact lazy_of_update K h
        ⟨rfl, rfl, rfl, rfl, rfl, rfl, rfl, rfl, rfl, rfl, rfl, rfl, rfl, rfl⟩
        rfl hinv
  | radius_type s =>
    replace h : set_radius_type K t s = Except.ok u := h
    unfold set_radius_type at h
    split at h
    case h_1 => simp at h
    case h_2 c _ =>
      exact lazy_of_update K h
        ⟨rfl, rfl, rfl, rfl, rfl, rfl, rfl, rfl, rfl, rfl, rfl, rfl, rfl, rfl⟩
        rfl hinv
  | axis_ratio v =>
    replace h : set_axis_ratio K t v = Except.ok u := h
    unfold set_axis_ratio at h
    split at h
    case h_1 => simp at h
    case h_2 a b c d e _ =>
      exact lazy_of_update K h
        ⟨rfl, rfl, rfl, rfl, rfl, rfl, rfl, rfl, rfl, rfl, rfl, rfl, rfl, rfl⟩
        rfl hinv
  | shape_volume s =>
    replace h : set_shape_volume K t s = Except.ok u := h
    unfold set_shape_volume at h
    split at h
    case h_1 => simp at h
    case h_2 c _ =>
      exact lazy_of_update K h
        ⟨rfl, rfl, rfl, rfl, rfl, rfl, rfl, rfl, rfl, rfl, rfl, rfl, rfl, rfl⟩
        rfl hinv
  | eps re im =>
    replace h : set_eps K t re im = Except.ok u := h
    unfold set_eps at h
    split at h
    case h_1 => simp at h
    case h_2 a b c d e f _ =>
      exact lazy_of_update K h
        ⟨rfl, rfl, rfl, rfl, rfl, rfl, rfl, rfl, rfl, rfl, rfl, rfl, rfl, rfl⟩
        rfl hinv
  | orientation s =>
    replace h : set_orientation K t s = Except.ok u := h
    unfold set_orientation at h
    split at h
    case isTrue hc =>
      exact lazy_of_update K h
        ⟨rfl, rfl, rfl, rfl, rfl, rfl, rfl, rfl, rfl, rfl, rfl, rfl, rfl, rfl⟩
        rfl hinv
    case isFalse hc => simp at h
  | orientation_pdf p =>
    replace h : update_attributes K {t with or_pdf := p} = Except.ok u := h
    exact lazy_of_update K h
      ⟨rfl, rfl, rfl, rfl, rfl, rfl, rfl, rfl, rfl, rfl, rfl, rfl, rfl, rfl⟩
      rfl hinv
  | n_alpha n =>
    replace h : update_attributes K {t with n_alpha := n} = Except.ok u := h
    exact lazy_of_update K h
      ⟨rfl, rfl, rfl, rfl, rfl, rfl, rfl, rfl, rfl, rfl, rfl, rfl, rfl, rfl⟩
      rfl hinv
  | n_beta n =>
    replace h : update_attributes K {t with n_beta := n} = Except.ok u := h
    exact lazy_of_update K h
      ⟨rfl, rfl, rfl, rfl, rfl, rfl, rfl, rfl, rfl, rfl, rfl, rfl, rfl, rfl⟩
      rfl hinv

/-- Aligning a pair of arrays of equal length returns the second array
unchanged. -/
theorem alignSnd_eq {a b : List ℚ} (h : b.length = a.length) :
    alignSnd a b = Except.ok b := by
  unfold alignSnd broadcastTo
  simp [h]

/-- With a single-orientation state whose viewing arrays have the canonical
length, compute_SZ with the viewing angles pinned to the incidence angles
invokes the kernel at (iza, iza, iaa, iaa). -/
theorem compute_SZ_pinned (K : TKernels) {t : TM} (h1 : t.orient = "S")
    (h2 : t.vzaDeg.length = t.izaDeg.length) (h3 : t.vaaDeg.length = t.iaaDeg.length) :
    compute_SZ K t ⟨none, some t.izaDeg, none, some t.iaaDeg, none, none⟩
      = Except.ok (K.szS t.nmax t.wavelength t.izaDeg t.izaDeg t.iaaDeg t.iaaDeg
          t.alphaDeg t.betaDeg) := by
  unfold compute_SZ
  rw [show resolveAngle t.vzaDeg (some t.izaDeg) = Except.ok t.izaDeg from
        alignSnd_eq h2.symm,
      show resolveAngle t.vaaDeg (some t.iaaDeg) = Except.ok t.iaaDeg from
        alignSnd_eq h3.symm]
  simp [resolveAngle, Bind.bind, Except.bind, Pure.pure, Except.pure, h1]

/-- Characterization of the NMAX radius write-back under the
maximum-radius type: the stored radii are replaced by their equal-volume
conversions while the stored radius-type code stays 2. -/
theorem nmaxCalc_max (K : TKernels) {t0 : TM} (hrt : t0.radius_type = 2)
    (hlen : t0.radius.length = t0.izaDeg.length) :
    (nmaxCalc K t0).radius = (List.range t0.izaDeg.length).map (fun i =>
        K.eqvol (t0.radius.getD i 0) (t0.axis_ratio.getD i 0) t0.shape_volume)
    ∧ (nmaxCalc K t0).radius_type = 2 := by
  unfold nmaxCalc
  rw [if_pos hrt]
  refine ⟨?_, hrt⟩
  refine List.map_congr_left ?_
  intro i hi
  have hi' : i < t0.radius.length := by
    rw [hlen]
    exact List.mem_range.mp hi
  rw [dif_pos hi',
    show t0.radius.get ⟨i, hi'⟩ = t0.radius.getD i 0 from
      (List.getD_eq_getElem t0.radius 0 hi').symm]

/-- A successful construction stores the requested orientation code and
leaves every matrix slot unmaterialized. -/
theorem init_fields (K : TKernels) {a : InitArgs} {t : TM}
    (hok : init K a = Except.ok t) :
    t.orient = a.orientation ∧ t.S? = none ∧ t.Z? = none ∧ depInv t := by
  unfold init at hok
  split at hok
  · simp at hok
  · split at hok
    · simp at hok
    · split at hok
      case isTrue =>
        split at hok
        case h_1 =>
          have := Except.ok.inj hok
          subst this
          exact ⟨rfl, rfl, rfl, by simp [depInv, nmaxCalc]⟩
        case h_2 => simp at hok
      case isFalse => simp at hok

end TMatrix

namespace I2EM

/-- The accumulation loop of __sigma_nought computes the truncated series
sum for i = 1 .. Ts in both polarizations. -/
theorem sigmaLoop_eq_sum (Wn : List ℚ) (Ivv Ihh : List Cx) (sigma : ℚ) :
    ∀ Ts : ℕ, sigmaLoop Wn Ivv Ihh sigma Ts =
      (∑ i in Finset.Icc 1 Ts,
         absSq (Ivv.getD (i - 1) ⟨0, 0⟩) *
           (Wn.getD (i - 1) 0 / (Nat.factorial i : ℚ) * sigma ^ (2 * i)),
       ∑ i in Finset.Icc 1 Ts,
         absSq (Ihh.getD (i - 1) ⟨0, 0⟩) *
           (Wn.getD (i - 1) 0 / (Nat.factorial i : ℚ) * sigma ^ (2 * i))) := by
  intro Ts
  induction Ts with
  | zero => simp [sigmaLoop]
  | succ t ih =>
    have hv := Finset.sum_Icc_succ_top (show 1 ≤ t + 1 by omega)
      (fun i => absSq (Ivv.getD (i - 1) ⟨0, 0⟩) *
        (Wn.getD (i - 1) 0 / (Nat.factorial i : ℚ) * sigma ^ (2 * i)))
    have hh := Finset.sum_Icc_succ_top (show 1 ≤ t + 1 by omega)
      (fun i => absSq (Ihh.getD (i - 1) ⟨0, 0⟩) *
        (Wn.getD (i - 1) 0 / (Nat.factorial i : ℚ) * sigma ^ (2 * i)))
    unfold sigmaLoop
    rw [ih, hv, hh]

end I2EM

/-- C3: for every I2EM instance the linear backscatter coefficients satisfy
sigma_pp = (k^2/2) * exp(-sigma^2 * (kz_i^2 + kz_v^2)) * Shadow *
sum over i from 1 to Ts of abs(I_pp[i])^2 * Wn[i]/i! * sigma^(2*i), for pp
in {vv, hh}, with Ts the truncation order delivered by the
reflection-coefficient stage. -/
theorem c3_sigma_nought_series (log10f expf : ℚ → ℚ) (Ts : ℕ) (Wn : List ℚ)
    (Ivv Ihh : List Cx) (ShdwS k kz_iza kz_vza sigma : ℚ) :
    (I2EM.sigma_nought log10f expf Ts Wn Ivv Ihh ShdwS k kz_iza kz_vza sigma).VV
      = k ^ 2 / 2 * expf (-sigma ^ 2 * (kz_iza ^ 2 + kz_vza ^ 2)) * ShdwS *
          ∑ i in Finset.Icc 1 Ts,
            absSq (Ivv.getD (i - 1) ⟨0, 0⟩) *
              (Wn.getD (i - 1) 0 / (Nat.factorial i : ℚ) * sigma ^ (2 * i))
    ∧ (I2EM.sigma_nought log10f expf Ts Wn Ivv Ihh ShdwS k kz_iza kz_vza sigma).HH
      = k ^ 2 / 2 * expf (-sigma ^ 2 * (kz_iza ^ 2 + kz_vza ^ 2)) * ShdwS *
          ∑ i in Finset.Icc 1 Ts,
            absSq (Ihh.getD (i - 1) ⟨0, 0⟩) *
              (Wn.getD (i - 1) 0 / (Nat.factorial i : ℚ) * sigma ^ (2 * i)) := by
  have hl := I2EM.sigmaLoop_eq_sum Wn Ivv Ihh sigma Ts
  refine ⟨?_, ?_⟩ <;> simp only [I2EM.sigma_nought, hl] <;> ring

/-- C8: the dB conversion applied to the I2EM backscatter results computes
10 * log10 x for positive x and yields NaN (modelled as none) for x <= 0
without raising; the backscatter dB fields are exactly the dB images of the
linear values. -/
theorem c8_dB_policy (log10f expf : ℚ → ℚ) (Ts : ℕ) (Wn : List ℚ) (Ivv Ihh : List Cx)
    (ShdwS k kz_iza kz_vza sigma : ℚ) :
    ((I2EM.sigma_nought log10f expf Ts Wn Ivv Ihh ShdwS k kz_iza kz_vza sigma).VVdB
       = I2EM.dB log10f
           (I2EM.sigma_nought log10f expf Ts Wn Ivv Ihh ShdwS k kz_iza kz_vza sigma).VV)
    ∧ ((I2EM.sigma_nought log10f expf Ts Wn Ivv Ihh ShdwS k kz_iza kz_vza sigma).HHdB
       = I2EM.dB log10f
           (I2EM.sigma_nought log10f expf Ts Wn Ivv Ihh ShdwS k kz_iza kz_vza sigma).HH)
    ∧ (∀ x : ℚ, 0 < x → I2EM.dB log10f x = some (10 * log10f x))
    ∧ (∀ x : ℚ, x ≤ 0 → I2EM.dB log10f x = none) := by
  refine ⟨rfl, rfl, fun x hx => ?_, fun x hx => ?_⟩
  · unfold I2EM.dB; rw [if_pos hx]
  · unfold I2EM.dB; rw [if_neg (not_lt.mpr hx)]

/-- Witness for C8 at concrete inputs: a positive value is converted, a
negative one propagates NaN. -/
theorem c8_dB_policy_witness :
    I2EM.dB (fun x => x) 4 = some 40 ∧ I2EM.dB (fun x => x) (-2) = none := by
  have h := c8_dB_policy (fun x => x) (fun x => x) 0 [] [] [] 0 0 0 0 0
  refine ⟨?_, h.2.2.2 (-2) (by norm_num)⟩
  have h1 := h.2.2.1 4 (by norm_num)
  norm_num at h1
  exact h1

/-- C10: the incidence-direction vertical wavenumber of I2EM is
k * cos(iza + 0.01) — offset by 0.01 radians — while the viewing-direction
one is k * cos(vza) without offset; for iza = vza the monostatic attenuation
exponent therefore differs from -2 * sigma^2 * (k * cos(iza))^2 whenever the
offset changes the squared cosine. -/
theorem c10_kz_offset (K : I2EM.IK) (piv iza raa frequency : ℚ) (eps : Cx)
    (corrlength sigma : ℚ) (n : ℕ) :
    (I2EM.run K piv iza iza raa frequency eps corrlength sigma n).kz_iza
        = (I2EM.run K piv iza iza raa frequency eps corrlength sigma n).k
            * K.cosf (iza + 1 / 100)
    ∧ (I2EM.run K piv iza iza raa frequency eps corrlength sigma n).kz_vza
        = (I2EM.run K piv iza iza raa frequency eps corrlength sigma n).k * K.cosf iza
    ∧ (piv * frequency ≠ 0 → sigma ≠ 0 →
        K.cosf (iza + 1 / 100) ^ 2 ≠ K.cosf iza ^ 2 →
        -sigma ^ 2 * ((I2EM.run K piv iza iza raa frequency eps corrlength sigma n).kz_iza ^ 2
            + (I2EM.run K piv iza iza raa frequency eps corrlength sigma n).kz_vza ^ 2)
          ≠ -(2 * sigma ^ 2
              * ((I2EM.run K piv iza iza raa frequency eps corrlength sigma n).k
                  * K.cosf iza) ^ 2)) := by
  have hk : (I2EM.run K piv iza iza raa frequency eps corrlength sigma n).k
      = 2 * piv * frequency / 30 := rfl
  have h1 : (I2EM.run K piv iza iza raa frequency eps corrlength sigma n).kz_iza
      = 2 * piv * frequency / 30 * K.cosf (iza + 1 / 100) := rfl
  have h2 : (I2EM.run K piv iza iza raa frequency eps corrlength sigma n).kz_vza
      = 2 * piv * frequency / 30 * K.cosf iza := rfl
  refine ⟨by rw [h1, hk], by rw [h2, hk], ?_⟩
  intro hpf hs hc heq
  rw [h1, h2, hk] at heq
  have hk0 : (2 * piv * frequency / 30 : ℚ) ≠ 0 := by
    have he : (2 * piv * frequency / 30 : ℚ) = (1 / 15) * (piv * frequency) := by ring
    rw [he]
    exact mul_ne_zero (by norm_num) hpf
  have key : sigma ^ 2 * (2 * piv * frequency / 30) ^ 2 * K.cosf (iza + 1 / 100) ^ 2
      = sigma ^ 2 * (2 * piv * frequency / 30) ^ 2 * K.cosf iza ^ 2 := by
    linear_combination -heq
  exact hc (mul_left_cancel₀
    (mul_ne_zero (pow_ne_zero 2 hs) (pow_ne_zero 2 hk0)) key)

/-- Witness for C10 with the demo cosine 1 - x^2 at iza = vza = 0,
frequency 1, sigma 1: the hypotheses hold and the exponents differ. -/
theorem c10_kz_offset_witness :
    ((3 : ℚ) * 1 ≠ 0) ∧ ((1 : ℚ) ≠ 0)
    ∧ (I2EM.IKdemo.cosf (0 + 1 / 100) ^ 2 ≠ I2EM.IKdemo.cosf 0 ^ 2)
    ∧ (-(1 : ℚ) ^ 2 * ((I2EM.run I2EM.IKdemo 3 0 0 0 1 ⟨1, 0⟩ 1 1 0).kz_iza ^ 2
          + (I2EM.run I2EM.IKdemo 3 0 0 0 1 ⟨1, 0⟩ 1 1 0).kz_vza ^ 2)
        ≠ -(2 * (1 : ℚ) ^ 2 * ((I2EM.run I2EM.IKdemo 3 0 0 0 1 ⟨1, 0⟩ 1 1 0).k
            * I2EM.IKdemo.cosf 0) ^ 2)) := by
  refine ⟨by norm_num, by norm_num, by norm_num [I2EM.IKdemo], ?_⟩
  exact (c10_kz_offset I2EM.IKdemo 3 0 0 1 ⟨1, 0⟩ 1 1 0).2.2 (by norm_num) (by norm_num)
    (by norm_num [I2EM.IKdemo])

/-- C7: each I2EM emissivity equals 1 minus the double integral of the
kernel over zenith 0..pi/2 and azimuth 0..pi (evaluated separately per
polarization) minus exp(-(k*sigma)^2 * cos^2(iza)) times the squared
magnitude of the matching Fresnel reflection coefficient. -/
theorem c7_emissivity (K : I2EM.EK) (iza vza raa frequency : ℚ) (eps : Cx)
    (corrlength sigma : ℚ) (R : I2EM.EmsRes)
    (h : I2EM.emissivity_run K iza vza raa frequency eps corrlength sigma "exponential"
      = Except.ok R) :
    R.VV = 1 - (K.dblquadE 0 (K.piE / 2) 0 K.piE iza eps R.rv R.rh R.k R.kl R.ks R.sq
          K.exponential_ems corrlength "vv").1
        - K.expf (-(R.k * sigma) ^ 2 * K.cosf iza * K.cosf iza) * absSq R.rv
    ∧ R.HH = 1 - (K.dblquadE 0 (K.piE / 2) 0 K.piE iza eps R.rv R.rh R.k R.kl R.ks R.sq
          K.exponential_ems corrlength "hh").1
        - K.expf (-(R.k * sigma) ^ 2 * K.cosf iza * K.cosf iza) * absSq R.rh
    ∧ R.ks = R.k * sigma
    ∧ R.sq = K.csqrt (Cx.sub eps (Cx.ofRat (K.sinf iza ^ 2)))
    ∧ R.rv = Cx.div (Cx.sub (Cx.mul eps (Cx.ofRat (K.cosf iza))) R.sq)
                    (Cx.add (Cx.mul eps (Cx.ofRat (K.cosf iza))) R.sq)
    ∧ R.rh = Cx.div (Cx.sub (Cx.ofRat (K.cosf iza)) R.sq)
                    (Cx.add (Cx.ofRat (K.cosf iza)) R.sq) := by
  have h' : Except.ok (I2EM.emissivity_body K iza frequency eps corrlength sigma
      K.exponential_ems) = Except.ok R := h
  have hR := Except.ok.inj h'
  subst hR
  exact ⟨rfl, rfl, rfl, rfl, rfl, rfl⟩

/-- Witness for C7 at the concrete emissivity run. -/
theorem c7_emissivity_witness :
    I2EM.emsDemoRes.ks = I2EM.emsDemoRes.k * 1 :=
  (c7_emissivity I2EM.EKdemo 0 0 0 1 ⟨1, 0⟩ 1 1 I2EM.emsDemoRes rfl).2.2.1

/-- C1: counterexample execution against the cache-coherence claim.  On a
normalized instance whose Snorm slot was read, mutating the frequency
recomputes S and Z but re-assigns the OLD Snorm block (the update step
`self.__Snorm = self.Snorm` reads back the stored value), so a subsequent
Snorm read returns the pre-mutation entry 1 while a fresh construction with
the same final configuration (frequencies and wavelengths agree) returns
entry 2. -/
theorem c1_snorm_stale :
    ((TMatrix.propSnorm TMatrix.Kdemo TMatrix.tA2).toOption.map
        (fun r : TMatrix.TM × Option TMatrix.SMat =>
          r.2.map (fun m : TMatrix.SMat => m 0 0))) = some (some (Cx.mk 1 0))
    ∧ ((TMatrix.propSnorm TMatrix.Kdemo TMatrix.tB).toOption.map
        (fun r : TMatrix.TM × Option TMatrix.SMat =>
          r.2.map (fun m : TMatrix.SMat => m 0 0))) = some (some (Cx.mk 2 0))
    ∧ TMatrix.tA2.wavelength = TMatrix.tB.wavelength
    ∧ TMatrix.tA2.frequency = TMatrix.tB.frequency
    ∧ Cx.mk 1 0 ≠ Cx.mk 2 0 :=
  ⟨rfl, rfl, rfl, rfl, by decide⟩

/-- C2: a single parameter-mutator call on a state satisfying the
dependency-closure invariant (which every reachable instance satisfies)
never materializes a slot: every derived slot that was None before the
mutation is still None afterwards. -/
theorem c2_unmaterialized_laziness (K : TMatrix.TKernels) (m : TMatrix.Mutator)
    {t u : TMatrix.TM} (hinv : TMatrix.depInv t)
    (h : TMatrix.applyMutator K t m = Except.ok u) : TMatrix.nonePres t u :=
  TMatrix.mutator_lazy K m hinv h

/-- Witness for C2: the state tA1 has S, Z and Snorm materialized and the
rest unmaterialized; an n_alpha mutation succeeds and preserves both. -/
theorem c2_unmaterialized_laziness_witness :
    TMatrix.depInv TMatrix.tA1
    ∧ TMatrix.applyMutator TMatrix.Kdemo TMatrix.tA1 (TMatrix.Mutator.n_alpha 7)
        = Except.ok TMatrix.tC2
    ∧ TMatrix.nonePres TMatrix.tA1 TMatrix.tC2 := by
  refine ⟨by unfold TMatrix.depInv; decide, rfl, ?_⟩
  exact c2_unmaterialized_laziness TMatrix.Kdemo (TMatrix.Mutator.n_alpha 7)
    (by unfold TMatrix.depInv; decide) rfl

/-- C4: compute_SZ with explicit angle overrides is a pure query — the
state is returned unchanged (so the subsequent S, Z and SZ property reads
are those of the original state) and an immediate second call with the same
explicit angles returns the identical result. -/
theorem c4_compute_SZ_pure (K : TMatrix.TKernels) (t : TMatrix.TM)
    (o : TMatrix.Overrides) {p : TMatrix.TM × TMatrix.Out}
    (h : TMatrix.step K t (TMatrix.Op.callSZ o) = Except.ok p) :
    p.1 = t
    ∧ TMatrix.step K p.1 (TMatrix.Op.callSZ o) = Except.ok p
    ∧ TMatrix.propS K p.1 = TMatrix.propS K t
    ∧ TMatrix.propZ K p.1 = TMatrix.propZ K t
    ∧ TMatrix.propSZ K p.1 = TMatrix.propSZ K t := by
  have h' : (match TMatrix.compute_SZ K t o with
    | Except.error e => Except.error e
    | Except.ok sz => Except.ok (t, TMatrix.Out.szOut sz.1 sz.2)) = Except.ok p := h
  cases hc : TMatrix.compute_SZ K t o with
  | error e => rw [hc] at h'; simp at h'
  | ok sz =>
    rw [hc] at h'
    have hp := Except.ok.inj h'
    subst hp
    refine ⟨rfl, ?_, rfl, rfl, rfl⟩
    show (match TMatrix.compute_SZ K t o with
      | Except.error e => Except.error e
      | Except.ok sz => Except.ok (t, TMatrix.Out.szOut sz.1 sz.2))
        = Except.ok (t, TMatrix.Out.szOut sz.1 sz.2)
    rw [hc]

/-- Witness for C4 on the concrete instance and override. -/
theorem c4_compute_SZ_pure_witness :
    TMatrix.pC4.1 = TMatrix.tA
    ∧ TMatrix.step TMatrix.Kdemo TMatrix.pC4.1 (TMatrix.Op.callSZ TMatrix.ovDemo)
        = Except.ok TMatrix.pC4 := by
  have h := c4_compute_SZ_pure TMatrix.Kdemo TMatrix.tA TMatrix.ovDemo rfl
  exact ⟨h.1, h.2.1⟩

/-- C5: the extinction cross section is computed from a second
scattering-matrix evaluation with the viewing zenith and azimuth pinned to
the incidence ones — the kernel is invoked at (iza, iza, iaa, iaa) — and it
is independent of the cached S, Z and ke slots. -/
theorem c5_qe_backscatter (K : TMatrix.TKernels) (t : TMatrix.TM)
    (h1 : t.orient = "S") (h2 : t.vzaDeg.length = t.izaDeg.length)
    (h3 : t.vaaDeg.length = t.iaaDeg.length) :
    TMatrix.qeCalc K t = Except.ok (K.xsecQE
        (K.szS t.nmax t.wavelength t.izaDeg t.izaDeg t.iaaDeg t.iaaDeg t.alphaDeg
          t.betaDeg).1 t.wavelength)
    ∧ (∀ s z ke, TMatrix.qeCalc K {t with S? := s, Z? := z, ke? := ke}
        = TMatrix.qeCalc K t) := by
  constructor
  · unfold TMatrix.qeCalc
    rw [TMatrix.compute_SZ_pinned K h1 h2 h3]
  · intro s z ke
    rfl

/-- Witness for C5 on the concrete instance. -/
theorem c5_qe_backscatter_witness :
    TMatrix.qeCalc TMatrix.Kdemo TMatrix.tA = Except.ok (TMatrix.Kdemo.xsecQE
        (TMatrix.Kdemo.szS TMatrix.tA.nmax TMatrix.tA.wavelength TMatrix.tA.izaDeg
          TMatrix.tA.izaDeg TMatrix.tA.iaaDeg TMatrix.tA.iaaDeg TMatrix.tA.alphaDeg
          TMatrix.tA.betaDeg).1 TMatrix.tA.wavelength) :=
  (c5_qe_backscatter TMatrix.Kdemo TMatrix.tA rfl rfl rfl).1

/-- C6: constructing with orientation AA succeeds (the validation accepts
the code), but the matrix pipeline — compute_SZ without overrides, the S
property, the cross-section dispatch — raises the unsupported-orientation
error on such an instance; and a code outside the admissible set is rejected
at construction (and, symmetrically, at the orientation setter). -/
theorem c6_orientation_aa (K : TMatrix.TKernels) (a : TMatrix.InitArgs)
    {t : TMatrix.TM} (hAA : a.orientation = "AA")
    (hok : TMatrix.init K a = Except.ok t) :
    ("AA" ∈ TMatrix.param_orientation)
    ∧ TMatrix.compute_SZ K t TMatrix.noOv
        = Except.error (Err.valueError "Orientation must be S or AF.")
    ∧ TMatrix.propS K t = Except.error (Err.valueError "Orientation must be S or AF.")
    ∧ TMatrix.qsCalc K t = Except.error (Err.valueError "Orientation must be S or AF.")
    ∧ (∀ a2 : TMatrix.InitArgs, TMatrix.param_radius_type a2.radius_type ≠ none →
        TMatrix.param_shape a2.shape ≠ none →
        a2.orientation ∉ TMatrix.param_orientation →
        TMatrix.init K a2
          = Except.error (Err.valueError "Orientation must be S, AA or AF."))
    ∧ (∀ s, s ∉ TMatrix.param_orientation → TMatrix.set_orientation K t s
        = Except.error (Err.valueError "Orientation must be S, AA or AF.")) := by
  obtain ⟨horient, hS, hZ, _⟩ := TMatrix.init_fields K hok
  rw [hAA] at horient
  have hsz : TMatrix.compute_SZ K t TMatrix.noOv
      = Except.error (Err.valueError "Orientation must be S or AF.") := by
    unfold TMatrix.compute_SZ
    simp [TMatrix.resolveAngle, TMatrix.noOv, Bind.bind, Except.bind, horient]
  refine ⟨by decide, hsz, ?_, ?_, ?_, ?_⟩
  · unfold TMatrix.propS
    rw [hS, hsz]
  · unfold TMatrix.qsCalc
    rw [horient]
    simp
  · intro a2 hrt hsh hor
    obtain ⟨c1, hc1⟩ := Option.ne_none_iff_exists'.mp hrt
    obtain ⟨c2, hc2⟩ := Option.ne_none_iff_exists'.mp hsh
    unfold TMatrix.init
    rw [hc1, hc2]
    simp [hor]
  · intro s hs
    unfold TMatrix.set_orientation
    rw [if_neg hs]

/-- Witness for C6: the AA instance exists and its S read raises; an
unknown code is rejected at construction and at the setter. -/
theorem c6_orientation_aa_witness :
    TMatrix.propS TMatrix.Kdemo TMatrix.tAA
      = Except.error (Err.valueError "Orientation must be S or AF.")
    ∧ TMatrix.init TMatrix.Kdemo {TMatrix.argsAA with orientation := "X"}
      = Except.error (Err.valueError "Orientation must be S, AA or AF.")
    ∧ TMatrix.set_orientation TMatrix.Kdemo TMatrix.tAA "X"
      = Except.error (Err.valueError "Orientation must be S, AA or AF.") := by
  have h := c6_orientation_aa TMatrix.Kdemo TMatrix.argsAA rfl rfl
  exact ⟨h.2.2.1, h.2.2.2.2.1 {TMatrix.argsAA with orientation := "X"}
      (by decide) (by decide) (by decide),
    h.2.2.2.2.2 "X" (by decide)⟩

/-- C9: with the maximum-radius type (stored code 2), every mutator call
reruns the NMAX computation, which converts the stored radii to
equal-volume radii entrywise and writes them back while the radius-type
code stays 2; the radius property exposes the converted array, so each
further mutator converts the already-converted radii again, and the
construction-time NMAX computation applies the same conversion. -/
theorem c9_max_radius_conversion (K : TMatrix.TKernels) {t u : TMatrix.TM} (n : ℤ)
    (hinv : TMatrix.depInv t) (hrt : t.radius_type = 2)
    (hlen : t.radius.length = t.izaDeg.length)
    (h : TMatrix.applyMutator K t (TMatrix.Mutator.n_alpha n) = Except.ok u) :
    u.radius = (List.range t.izaDeg.length).map (fun i =>
        K.eqvol (t.radius.getD i 0) (t.axis_ratio.getD i 0) t.shape_volume)
    ∧ u.radius_type = 2
    ∧ TMatrix.radiusProp u = u.radius
    ∧ u.izaDeg = t.izaDeg
    ∧ u.radius.length = u.izaDeg.length
    ∧ (∀ t0 : TMatrix.TM, t0.radius_type = 2 → t0.radius.length = t0.izaDeg.length →
        (TMatrix.nmaxCalc K t0).radius = (List.range t0.izaDeg.length).map (fun i =>
            K.eqvol (t0.radius.getD i 0) (t0.axis_ratio.getD i 0) t0.shape_volume)
        ∧ (TMatrix.nmaxCalc K t0).radius_type = 2) := by
  replace h : TMatrix.update_attributes K {t with n_alpha := n} = Except.ok u := h
  have hspec := TMatrix.update_spec K
    (show TMatrix.depInv {t with n_alpha := n} from hinv) h
  have hconv := TMatrix.nmaxCalc_max K
    (show ({t with n_alpha := n} : TMatrix.TM).radius_type = 2 from hrt)
    (show ({t with n_alpha := n} : TMatrix.TM).radius.length
        = ({t with n_alpha := n} : TMatrix.TM).izaDeg.length from hlen)
  have hrad : u.radius = (List.range t.izaDeg.length).map (fun i =>
      K.eqvol (t.radius.getD i 0) (t.axis_ratio.getD i 0) t.shape_volume) :=
    hspec.2.2.2.1.trans hconv.1
  refine ⟨hrad, hspec.2.2.2.2.1.trans hrt, rfl, hspec.2.2.1, ?_, ?_⟩
  · rw [hrad, hspec.2.2.1]
    simp
  · intro t0 h0 hl0
    exact TMatrix.nmaxCalc_max K h0 hl0

/-- Witness for C9: the instance built with maximum radius 8 stores the
converted value -8 after construction; each further mutator call converts
again (8 after the first, -8 after the second), with the radius-type code
pinned at 2 throughout. -/
theorem c9_max_radius_conversion_witness :
    TMatrix.argsM.radius = [8]
    ∧ TMatrix.tM.radius = [-8]
    ∧ TMatrix.tM1.radius = [8]
    ∧ TMatrix.tM1.radius_type = 2
    ∧ TMatrix.radiusProp TMatrix.tM1 = TMatrix.tM1.radius
    ∧ TMatrix.tM2.radius = [-8] := by
  have h := @c9_max_radius_conversion TMatrix.Kdemo TMatrix.tM TMatrix.tM1 7
    (by unfold TMatrix.depInv; decide) rfl rfl rfl
  exact ⟨rfl, by decide, by decide, h.2.1, h.2.2.1, by decide⟩

end Pyrism
